import Mathlib

/-!
Verification of the merchant-onboarding pipeline (onboarding_api.py,
utils/status_tracker.py, utils/db_helpers.py, handlers/product_processor.py,
handlers/vertex_setup.py) against its natural-language specification.

The embedding is shallow: Python dicts become Lean structures or ordered
association lists, the step-status tracker's mutation becomes a pure update
function, the orchestrator's exception control flow becomes an explicit
first-fatal-error value, and every external call's outcome (database, blob
store, search-index service) is an input in an environment record.
Wall-clock timestamps (datetime.utcnow) are modelled as explicit natural
number parameters where a claim mentions them and omitted otherwise; the
`updated_at` bookkeeping columns are not modelled.
-/

namespace Onboarding

/-- StepStatus enum from utils/status_tracker.py. -/
inductive StepStatus where
  | pending
  | in_progress
  | completed
  | failed
  | skipped
deriving DecidableEq, Repr

/-- JobStatus enum from utils/status_tracker.py. -/
inductive JobStatus where
  | pending
  | in_progress
  | completed
  | failed
  | cancelled
deriving DecidableEq, Repr

/-- One per-step record of a tracked job (the inner dicts of
`StatusTracker.create_job`).  The `started_at`/`completed_at`/`updated_at`
timestamp bookkeeping is not modelled. -/
structure StepRec where
  status : StepStatus
  message : String
  error : Option String
deriving DecidableEq, Repr

/-- One tracked onboarding job (`StatusTracker._jobs[merchant_id]`).
`steps` is an ordered association list mirroring the Python dict's
insertion order.  `created_at`/`updated_at` are not modelled; `job_id`
is `merchant_id + "_" + timestamp`. -/
structure Job where
  job_id : String
  merchant_id : String
  user_id : String
  status : JobStatus
  progress : Nat
  total_steps : Nat
  current_step : Option String
  steps : List (String × StepRec)
  error : Option String
deriving DecidableEq, Repr

/-- Fresh pending step record with the given message. -/
def freshStep (msg : String) : StepRec :=
  { status := StepStatus.pending, message := msg, error := none }

/-- `StatusTracker.create_job` (utils/status_tracker.py, lines 36-114):
the tracked job starts with exactly these seven steps, all pending,
`total_steps = 7`, progress 0, overall status pending.  `now` stands for
`int(datetime.utcnow().timestamp())` used to build the job id. -/
def createJob (merchant_id user_id : String) (now : Nat) : Job :=
  { job_id := merchant_id ++ "_" ++ toString now
    merchant_id := merchant_id
    user_id := user_id
    status := JobStatus.pending
    progress := 0
    total_steps := 7
    current_step := none
    steps :=
      [ ("create_folders", freshStep "Creating folder structure")
      , ("process_products", freshStep "Processing product files")
      , ("process_categories", freshStep "Processing category files")
      , ("convert_documents", freshStep "Converting documents to NDJSON")
      , ("setup_vertex", freshStep "Setting up Vertex AI Search (with website crawling if URL provided)")
      , ("generate_config", freshStep "Generating merchant configuration")
      , ("finalize", freshStep "Finalizing onboarding")
      ]
    error := none }

/-- Update the record stored under `name` in an association list,
leaving all other entries untouched (Python dict item mutation). -/
def setStep : List (String × StepRec) → String → (StepRec → StepRec) →
    List (String × StepRec)
  | [], _, _ => []
  | (k, v) :: rest, name, f =>
    if k = name then (k, f v) :: setStep rest name f
    else (k, v) :: setStep rest name f

/-- Is every step of the list completed or skipped? -/
def allStepsDone (steps : List (String × StepRec)) : Bool :=
  steps.all (fun p =>
    p.2.status = StepStatus.completed || p.2.status = StepStatus.skipped)

/-- Count of completed-or-skipped steps. -/
def doneCount (steps : List (String × StepRec)) : Nat :=
  (steps.filter (fun p =>
    p.2.status = StepStatus.completed || p.2.status = StepStatus.skipped)).length

/-- `StatusTracker.update_step_status` (utils/status_tracker.py, lines
116-179).  An unknown step name is ignored (warning + early return).
Otherwise: the named step's status is set; on `in_progress` the job's
current step and overall status become in-progress; on `completed` the
step error is cleared; on `failed` the step error and the job's overall
status and error are set; a truthy (non-empty) message overwrites the
step message.  Afterwards progress is recomputed as
`int(done/total*100)` (integer truncation agrees with Nat division for
the 0..7 values that occur), and if every step is completed or skipped
the overall status becomes completed with progress 100. -/
def updateStepStatus (job : Job) (step_name : String) (status : StepStatus)
    (message : Option String) (error : Option String) : Job :=
  match job.steps.lookup step_name with
  | none => job
  | some _ =>
    let job1 :=
      { job with
        steps := setStep job.steps step_name (fun r => { r with status := status }) }
    let job2 :=
      match status with
      | StepStatus.in_progress =>
        { job1 with current_step := some step_name, status := JobStatus.in_progress }
      | StepStatus.completed =>
        { job1 with
          steps := setStep job1.steps step_name (fun r => { r with error := none }) }
      | StepStatus.failed =>
        { job1 with
          steps := setStep job1.steps step_name (fun r => { r with error := error })
          status := JobStatus.failed
          error := error }
      | _ => job1
    let job3 :=
      match message with
      | some m => if m ≠ "" then
          { job2 with
            steps := setStep job2.steps step_name (fun r => { r with message := m }) }
        else job2
      | none => job2
    let job4 := { job3 with progress := doneCount job3.steps * 100 / job3.total_steps }
    if allStepsDone job4.steps then
      { job4 with status := JobStatus.completed, progress := 100 }
    else job4

/-! ## File classifier (onboarding_api.py, process_onboarding steps 2, 2b, 3) -/

/-- Does the first character list start the second one? -/
def charsHasStart : List Char → List Char → Bool
  | [], _ => true
  | _ :: _, [] => false
  | a :: as, b :: bs => a = b && charsHasStart as bs

/-- Does the first character list occur contiguously in the second? -/
def charsHasSubstr (needle : List Char) : List Char → Bool
  | [] => charsHasStart needle []
  | c :: rest => charsHasStart needle (c :: rest) || charsHasSubstr needle rest

/-- Python's `needle in hay` on strings. -/
def strContains (hay needle : String) : Bool :=
  charsHasSubstr needle.data hay.data

/-- The segment after the last slash: `file_path.split('/')[-1]`. -/
def lastSegment (l : List Char) : List Char :=
  l.foldl (fun acc c => if c = '/' then [] else acc ++ [c]) []

/-- `file_path.split('/')[-1].lower()` as used in every knowledge-base
scan.  Python's `str.lower` lowercases Unicode; `Char.toLower` covers
the ASCII range, which is all these fixed filename comparisons use. -/
def basenameLower (path : String) : String :=
  String.mk ((lastSegment path.data).map Char.toLower)

/-- Python's `str.endswith` on the modelled strings. -/
def strEndsWith (s suffix : String) : Bool :=
  charsHasStart suffix.data.reverse s.data.reverse

/-- Product file names recognised by the products scan
(onboarding_api.py, lines 340-345). -/
def productFileNames : List String :=
  ["products.json", "products.csv", "products.xlsx", "products.xls"]

/-- Category file names recognised by the categories scan
(onboarding_api.py, lines 398-403); note `categories.json` is absent. -/
def categoryFileNames : List String :=
  ["categories.csv", "categories.xlsx", "categories.xls"]

/-- Products scan: the first file in listing order whose lowercased
basename is one of the four product file names (`break` on first hit). -/
def findProductsFile (files : List String) : Option String :=
  files.find? (fun f => productFileNames.contains (basenameLower f))

/-- Categories scan: the first file in listing order whose lowercased
basename is one of the three category file names. -/
def findCategoriesFile (files : List String) : Option String :=
  files.find? (fun f => categoryFileNames.contains (basenameLower f))

/-- Exclusion list of the documents scan (onboarding_api.py, lines
450-451): product/category names, again without `categories.json`. -/
def excludedDocumentNames : List String :=
  ["products.json", "products.csv", "products.xlsx", "products.xls",
   "categories.csv", "categories.xlsx", "categories.xls"]

/-- Documents scan: every file whose lowercased basename is not excluded
and does not end with `.keep` (onboarding_api.py, lines 453-457). -/
def findDocumentFiles (files : List String) : List String :=
  files.filter (fun f =>
    !excludedDocumentNames.contains (basenameLower f)
      && !strEndsWith (basenameLower f) ".keep")

/-! ## Corpus-record identifier sanitizer
(handlers/product_processor.py, lines 423-438 and 597-612) -/

/-- Characters kept by the sanitizer's character class `[a-zA-Z0-9-_]`. -/
def isAllowedIdChar (c : Char) : Bool :=
  c.isAlpha || c.isDigit || c = '-' || c = '_'

/-- `re.sub(r'[^a-zA-Z0-9-_]', '-', s)`: every disallowed character
becomes a hyphen. -/
def replaceDisallowed (l : List Char) : List Char :=
  l.map (fun c => if isAllowedIdChar c then c else '-')

/-- `re.sub(r'-+', '-', s)`: collapse runs of hyphens to a single one. -/
def collapseHyphens : List Char → List Char
  | [] => []
  | [c] => [c]
  | c1 :: c2 :: rest =>
    if c1 = '-' && c2 = '-' then collapseHyphens (c2 :: rest)
    else c1 :: collapseHyphens (c2 :: rest)

/-- `s.strip('-')`: remove leading and trailing hyphens. -/
def stripHyphens (l : List Char) : List Char :=
  ((l.dropWhile (fun c => c = '-')).reverse.dropWhile (fun c => c = '-')).reverse

/-- The three-stage sanitizer applied to a raw corpus-record id. -/
def sanitizeId (s : String) : String :=
  String.mk (stripHyphens (collapseHyphens (replaceDisallowed s.data)))

/-- `if not product_id: product_id = fallback` — positional-id fallback
when sanitization produced the empty string. -/
def sanitizeIdOr (raw fallback : String) : String :=
  if sanitizeId raw = "" then fallback else sanitizeId raw

/-- No two adjacent hyphens anywhere in the list. -/
def noDoubleHyphen : List Char → Bool
  | c1 :: c2 :: rest => !(c1 = '-' && c2 = '-') && noDoubleHyphen (c2 :: rest)
  | _ => true

/-- An id that is already in sanitized form: non-empty, every character
in `[A-Za-z0-9_-]`, no duplicate hyphens, and no leading or trailing
hyphen. -/
def isSanitizedId (s : String) : Bool :=
  !s.data.isEmpty && s.data.all isAllowedIdChar && noDoubleHyphen s.data
    && s.data.head? != some '-' && s.data.getLast? != some '-'

/-! ## Step Ledger: the durable merchants row (utils/db_helpers.py) -/

/-- The columns of the `merchants` row touched by `create_merchant`,
`update_merchant_onboarding_step` and the vertex-reference UPDATE.
Nullable columns are `Option`; timestamps are abstract naturals; the
`updated_at`/`created_at` bookkeeping columns are not modelled. -/
structure MerchantRow where
  merchant_id : String
  user_id : String
  shop_name : String
  shop_url : Option String
  bot_name : Option String
  status : String
  onboarding_status : String
  target_customer : Option String
  customer_persona : Option String
  bot_tone : Option String
  prompt_text : Option String
  top_questions : Option String
  top_products : Option String
  primary_color : Option String
  secondary_color : Option String
  logo_url : Option String
  platform : Option String
  custom_url_pattern : Option String
  knowledge_base_title : Option String
  knowledge_base_usage_description : Option String
  step_merchant_record_completed : Bool
  step_merchant_record_completed_at : Option Nat
  step_folders_created : Bool
  step_folders_created_at : Option Nat
  step_products_processed : Bool
  step_products_processed_at : Option Nat
  step_categories_processed : Bool
  step_categories_processed_at : Option Nat
  step_documents_converted : Bool
  step_documents_converted_at : Option Nat
  step_vertex_setup : Bool
  step_vertex_setup_at : Option Nat
  step_config_generated : Bool
  step_config_generated_at : Option Nat
  step_onboarding_completed : Bool
  step_onboarding_completed_at : Option Nat
  product_count : Option Nat
  category_count : Option Nat
  document_count : Option Nat
  config_path : Option String
  last_error : Option String
  last_onboarding_at : Option Nat
  vertex_datastore_id : Option String
  vertex_datastore_status : Option String
deriving DecidableEq, Repr

/-- The arguments of `create_merchant` (utils/db_helpers.py, lines
100-133).  `shop_url`/`bot_name`/`platform`/`custom_url_pattern` are
explicit parameters whose Python default is `None` resp.
`"AI Assistant"`; the remaining thirteen fields arrive through
`**kwargs` and are absent when `none`. -/
structure CreateMerchantArgs where
  merchant_id : String
  user_id : String
  shop_name : String
  shop_url : Option String
  bot_name : Option String
  platform : Option String
  custom_url_pattern : Option String
  target_customer : Option String
  customer_persona : Option String
  bot_tone : Option String
  prompt_text : Option String
  top_questions : Option String
  top_products : Option String
  primary_color : Option String
  secondary_color : Option String
  logo_url : Option String
  knowledge_base_title : Option String
  knowledge_base_usage_description : Option String
deriving DecidableEq, Repr

/-- First-some choice, `none` meaning "keep the existing column value". -/
def optOr (a b : Option α) : Option α :=
  match a with
  | some v => some v
  | none => b

/-- `platform`/`custom_url_pattern` join the column list only when
truthy (`elif field == 'platform' and platform:`), so an explicit empty
string behaves like an omitted value. -/
def truthyOpt (a : Option String) : Option String :=
  match a with
  | some v => if v = "" then none else some v
  | none => none

/-- `create_merchant` (utils/db_helpers.py, lines 100-194): dynamic
`INSERT ... ON CONFLICT (merchant_id) DO UPDATE`.  The base columns
(`merchant_id`, `user_id`, `shop_name`, `shop_url`, `bot_name`,
`status`, `onboarding_status`) are always in the column list; a kwargs
field is in the list only when supplied non-`None`.  On conflict every
listed column except `merchant_id` and `status` is overwritten with the
excluded value.  Columns never listed (step flags, counters, vertex
reference, ...) default to NULL/false on insert and are untouched on
conflict. -/
def createMerchantUpsert (db : Option MerchantRow) (a : CreateMerchantArgs) :
    MerchantRow :=
  match db with
  | none =>
    { merchant_id := a.merchant_id
      user_id := a.user_id
      shop_name := a.shop_name
      shop_url := a.shop_url
      bot_name := a.bot_name
      status := "active"
      onboarding_status := "pending"
      target_customer := a.target_customer
      customer_persona := a.customer_persona
      bot_tone := a.bot_tone
      prompt_text := a.prompt_text
      top_questions := a.top_questions
      top_products := a.top_products
      primary_color := a.primary_color
      secondary_color := a.secondary_color
      logo_url := a.logo_url
      platform := truthyOpt a.platform
      custom_url_pattern := truthyOpt a.custom_url_pattern
      knowledge_base_title := a.knowledge_base_title
      knowledge_base_usage_description := a.knowledge_base_usage_description
      step_merchant_record_completed := false
      step_merchant_record_completed_at := none
      step_folders_created := false
      step_folders_created_at := none
      step_products_processed := false
      step_products_processed_at := none
      step_categories_processed := false
      step_categories_processed_at := none
      step_documents_converted := false
      step_documents_converted_at := none
      step_vertex_setup := false
      step_vertex_setup_at := none
      step_config_generated := false
      step_config_generated_at := none
      step_onboarding_completed := false
      step_onboarding_completed_at := none
      product_count := none
      category_count := none
      document_count := none
      config_path := none
      last_error := none
      last_onboarding_at := none
      vertex_datastore_id := none
      vertex_datastore_status := none }
  | some old =>
    { old with
      user_id := a.user_id
      shop_name := a.shop_name
      shop_url := a.shop_url
      bot_name := a.bot_name
      onboarding_status := "pending"
      target_customer := optOr a.target_customer old.target_customer
      customer_persona := optOr a.customer_persona old.customer_persona
      bot_tone := optOr a.bot_tone old.bot_tone
      prompt_text := optOr a.prompt_text old.prompt_text
      top_questions := optOr a.top_questions old.top_questions
      top_products := optOr a.top_products old.top_products
      primary_color := optOr a.primary_color old.primary_color
      secondary_color := optOr a.secondary_color old.secondary_color
      logo_url := optOr a.logo_url old.logo_url
      platform := optOr (truthyOpt a.platform) old.platform
      custom_url_pattern := optOr (truthyOpt a.custom_url_pattern) old.custom_url_pattern
      knowledge_base_title := optOr a.knowledge_base_title old.knowledge_base_title
      knowledge_base_usage_description :=
        optOr a.knowledge_base_usage_description old.knowledge_base_usage_description }

/-- The eight ledger step keys of `update_merchant_onboarding_step`'s
`step_columns` mapping (utils/db_helpers.py, lines 225-234). -/
inductive StepKey where
  | merchant_record
  | folders
  | products
  | categories
  | documents
  | vertex
  | config
  | onboarding
deriving DecidableEq, Repr

/-- The wire step name of each ledger step key. -/
def StepKey.name : StepKey → String
  | .merchant_record => "merchant_record"
  | .folders => "folders"
  | .products => "products"
  | .categories => "categories"
  | .documents => "documents"
  | .vertex => "vertex"
  | .config => "config"
  | .onboarding => "onboarding"

/-- `step_columns.get(step_name)`: the dictionary lookup mapping a step
name to its column pair, `none` for an unknown name. -/
def stepKeyOfName (s : String) : Option StepKey :=
  if s = "merchant_record" then some StepKey.merchant_record
  else if s = "folders" then some StepKey.folders
  else if s = "products" then some StepKey.products
  else if s = "categories" then some StepKey.categories
  else if s = "documents" then some StepKey.documents
  else if s = "vertex" then some StepKey.vertex
  else if s = "config" then some StepKey.config
  else if s = "onboarding" then some StepKey.onboarding
  else none

/-- Set the one boolean+timestamp column pair belonging to a step key. -/
def setStepFlag (r : MerchantRow) (k : StepKey) (completed : Bool) (now : Nat) :
    MerchantRow :=
  match k with
  | .merchant_record =>
    { r with step_merchant_record_completed := completed
             step_merchant_record_completed_at := some now }
  | .folders =>
    { r with step_folders_created := completed
             step_folders_created_at := some now }
  | .products =>
    { r with step_products_processed := completed
             step_products_processed_at := some now }
  | .categories =>
    { r with step_categories_processed := completed
             step_categories_processed_at := some now }
  | .documents =>
    { r with step_documents_converted := completed
             step_documents_converted_at := some now }
  | .vertex =>
    { r with step_vertex_setup := completed
             step_vertex_setup_at := some now }
  | .config =>
    { r with step_config_generated := completed
             step_config_generated_at := some now }
  | .onboarding =>
    { r with step_onboarding_completed := completed
             step_onboarding_completed_at := some now }

/-- The `config_path = %s` clause: set when the truthy `file_paths`
dict carries that key (utils/db_helpers.py, lines 246-248). -/
def applyFilePaths (r : MerchantRow)
    (file_paths : Option (List (String × String))) : MerchantRow :=
  match file_paths with
  | some fps =>
    if fps ≠ [] then
      match fps.lookup "config_path" with
      | some p => { r with config_path := some p }
      | none => r
    else r
  | none => r

/-- The counter clauses: each of the three counters is set when the
truthy `counts` dict carries its key (lines 251-260). -/
def applyCounts (r : MerchantRow)
    (counts : Option (List (String × Nat))) : MerchantRow :=
  match counts with
  | some cs =>
    if cs ≠ [] then
      let ra := match cs.lookup "product_count" with
        | some n => { r with product_count := some n }
        | none => r
      let rb := match cs.lookup "category_count" with
        | some n => { ra with category_count := some n }
        | none => ra
      match cs.lookup "document_count" with
      | some n => { rb with document_count := some n }
      | none => rb
    else r
  | none => r

/-- The `onboarding_status` clauses for the terminal step (lines
263-267). -/
def applyOnboardingStatus (r : MerchantRow) (k : StepKey) (completed : Bool)
    (now : Nat) : MerchantRow :=
  if k = StepKey.onboarding then
    if completed then
      { r with onboarding_status := "completed", last_onboarding_at := some now }
    else
      { r with onboarding_status := "failed" }
  else r

/-- The `last_error` clause: set when the error is truthy (lines
270-272). -/
def applyLastError (r : MerchantRow) (error : Option String) : MerchantRow :=
  match error with
  | some e => if e ≠ "" then { r with last_error := some e } else r
  | none => r

/-- `update_merchant_onboarding_step` (utils/db_helpers.py, lines
197-303).  Returns the success flag and the updated row.  An unknown
step name returns `false` and leaves the row unchanged.  Otherwise the
single UPDATE sets the step's flag+timestamp pair, `config_path` when
the `file_paths` dict carries that key, each counter whose key is in
`counts`, `onboarding_status`/`last_onboarding_at` for the `onboarding`
step, and `last_error` when a truthy error is given. -/
def updateMerchantOnboardingStep (r : MerchantRow) (step_name : String)
    (completed : Bool) (file_paths : Option (List (String × String)))
    (counts : Option (List (String × Nat))) (error : Option String)
    (now : Nat) : Bool × MerchantRow :=
  match stepKeyOfName step_name with
  | none => (false, r)
  | some k =>
    (true, applyLastError
      (applyOnboardingStatus
        (applyCounts (applyFilePaths (setStepFlag r k completed now) file_paths)
          counts)
        k completed now)
      error)

/-! ## Search-index provisioning result (handlers/vertex_setup.py) -/

/-- Payload of `_create_or_get_single_datastore` (vertex_setup.py, lines
293-338): only the fields relevant here; the orchestrator never reads
them through the top-level dict. -/
structure SingleDatastoreInfo where
  datastore_id : String
  status : String
deriving DecidableEq, Repr

/-- A Python value stored in the `create_datastore` result dict. -/
inductive PyVal where
  | pynone
  | pystr (s : String)
  | pyobj (o : SingleDatastoreInfo)
deriving DecidableEq, Repr

/-- Reading a `PyVal` as a string; only ever applied where the lookup
provably fails, so the non-string branches are unreachable. -/
def pyValStr : PyVal → String
  | .pystr s => s
  | _ => ""

/-- `VertexSetup.create_datastore` result (vertex_setup.py, lines
216-291): a dict with exactly the keys `website_datastore` (None unless
a truthy shop_url was given) and `documents_datastore` (always built,
since the orchestrator leaves `create_documents_datastore=True`). -/
def createDatastoreResult (shop_url : String)
    (web docs : SingleDatastoreInfo) : List (String × PyVal) :=
  [ ("website_datastore", if shop_url ≠ "" then PyVal.pyobj web else PyVal.pynone)
  , ("documents_datastore", PyVal.pyobj docs) ]

/-! ## Orchestrator (onboarding_api.py, process_onboarding, lines 206-706)

Exception control flow becomes an explicit per-step first-fatal-error
value: each step contributes a block of tracker events and ledger
operations, emitted only if no earlier step aborted, and the outer
`except` handler contributes the closing finalize-failed block. -/

/-- Tracker event: one `status_tracker.update_step_status` call. -/
structure Ev where
  step : String
  status : StepStatus
  message : Option String
  error : Option String
deriving DecidableEq, Repr

/-- Event with neither message nor error. -/
def ev (s : String) (st : StepStatus) : Ev :=
  { step := s, status := st, message := none, error := none }

/-- Event carrying a message. -/
def evMsg (s : String) (st : StepStatus) (m : String) : Ev :=
  { step := s, status := st, message := some m, error := none }

/-- Event carrying an error. -/
def evErr (s : String) (st : StepStatus) (e : String) : Ev :=
  { step := s, status := st, message := none, error := some e }

/-- Ledger operation: one durable write issued by the orchestrator. -/
inductive LedgerOp where
  | upsert (a : CreateMerchantArgs)
  | mark (step_name : String) (completed : Bool)
      (file_paths : Option (List (String × String)))
      (counts : Option (List (String × Nat))) (error : Option String)
  | setVertexRef (id status : String)
deriving DecidableEq, Repr

/-- Apply one ledger operation to the (possibly absent) merchant row.
`mark` and `setVertexRef` are SQL UPDATEs: no-ops on an absent row.
The NOW() timestamps of orchestrator-issued marks are not significant
for any claim and are fixed to 0. -/
def applyLedgerOp (db : Option MerchantRow) : LedgerOp → Option MerchantRow
  | .upsert a => some (createMerchantUpsert db a)
  | .mark n c f cs e => db.map (fun r => (updateMerchantOnboardingStep r n c f cs e 0).2)
  | .setVertexRef i s => db.map (fun r =>
      { r with vertex_datastore_id := some i, vertex_datastore_status := some s })

/-- Apply a sequence of ledger operations. -/
def applyLedgerOps (db : Option MerchantRow) (ops : List LedgerOp) :
    Option MerchantRow :=
  ops.foldl applyLedgerOp db

/-- The arguments `process_onboarding` receives from `/onboard`. -/
structure OnboardArgs where
  merchant_id : String
  user_id : String
  shop_name : String
  shop_url : String
  bot_name : String
  target_customer : Option String
  customer_persona : Option String
  bot_tone : Option String
  prompt_text : Option String
  top_questions : Option String
  top_products : Option String
  primary_color : Option String
  secondary_color : Option String
  logo_url : Option String
  platform : Option String
  custom_url_pattern : Option String

/-- The `create_merchant` call of step 0 (onboarding_api.py, lines
233-250): every field passed explicitly. -/
def upsertArgsOf (a : OnboardArgs) : CreateMerchantArgs :=
  { merchant_id := a.merchant_id
    user_id := a.user_id
    shop_name := a.shop_name
    shop_url := some a.shop_url
    bot_name := some a.bot_name
    platform := a.platform
    custom_url_pattern := a.custom_url_pattern
    target_customer := a.target_customer
    customer_persona := a.customer_persona
    bot_tone := a.bot_tone
    prompt_text := a.prompt_text
    top_questions := a.top_questions
    top_products := a.top_products
    primary_color := a.primary_color
    secondary_color := a.secondary_color
    logo_url := a.logo_url
    knowledge_base_title := none
    knowledge_base_usage_description := none }

/-- Result of `document_converter.convert_documents`. -/
structure ConvertDocsResult where
  document_count : Nat
  skipped_files : List String
deriving DecidableEq, Repr

/-- Outcomes of every external call made by one `process_onboarding`
run.  `Except.error e` stands for the call raising an exception whose
`str` is `e`; `Except.ok` for a normal return.  The caught folder-flag
DB probe collapses to its post-catch boolean. -/
structure Env where
  createMerchantOutcome : Except String Bool
  foldersAlreadyCreated : Bool
  createFoldersOutcome : Except String Unit
  listProductsScan : Except String (List String)
  processProductsOutcome : Except String Nat
  listCategoriesScan : Except String (List String)
  processCategoriesOutcome : Except String Nat
  listDocumentsScan : Except String (List String)
  convertDocumentsOutcome : Except String ConvertDocsResult
  createDatastoreRaises : Option String
  websiteDatastoreInfo : SingleDatastoreInfo
  documentsDatastoreInfo : SingleDatastoreInfo
  docsNdjsonExists : Bool
  importDocsOutcome : Except String Unit
  productsNdjsonExists : Bool
  importProductsOutcome : Except String Unit
  categoriesNdjsonExists : Bool
  importCategoriesOutcome : Except String Unit
  vertexDbUpdateOk : Bool
  generateConfigOutcome : Except String (Option String)

/-- Emit a block only when its step was reached. -/
def onlyIf (b : Bool) (l : List α) : List α :=
  if b then l else []

/-- Step 0 fatal error: `create_merchant` raised, or returned False and
the orchestrator raised `Exception("Failed to create merchant record in
database")`. -/
def fatal0 (env : Env) : Option String :=
  match env.createMerchantOutcome with
  | .error e => some e
  | .ok b => if b then none else some "Failed to create merchant record in database"

/-- Step 0 tracker events (lines 226-273). -/
def events0 (env : Env) : List Ev :=
  ev "create_merchant_record" StepStatus.in_progress ::
  match fatal0 env with
  | none => [evMsg "create_merchant_record" StepStatus.completed
      "Merchant record created successfully"]
  | some e => [evErr "create_merchant_record" StepStatus.failed
      ("Failed to create merchant record in database: " ++ e)]

/-- Step 0 ledger writes: the upsert itself and the merchant_record
mark, only on success. -/
def ops0 (a : OnboardArgs) (env : Env) : List LedgerOp :=
  match env.createMerchantOutcome with
  | .ok true => [LedgerOp.upsert (upsertArgsOf a),
                 LedgerOp.mark "merchant_record" true none none none]
  | _ => []

/-- Step 1 fatal error (folder creation, lines 275-330). -/
def fatal1 (env : Env) : Option String :=
  if env.foldersAlreadyCreated then none
  else
    match env.createFoldersOutcome with
    | .ok _ => none
    | .error e => some e

/-- Step 1 tracker events. -/
def events1 (env : Env) : List Ev :=
  ev "create_folders" StepStatus.in_progress ::
  (if env.foldersAlreadyCreated then
    [evMsg "create_folders" StepStatus.completed
      "Folder structure already exists (created in Step 1)"]
   else
    match env.createFoldersOutcome with
    | .ok _ => [evMsg "create_folders" StepStatus.completed
        "Folder structure created successfully"]
    | .error e => [evErr "create_folders" StepStatus.failed e])

/-- Step 1 ledger writes; the already-created branch writes nothing. -/
def ops1 (env : Env) : List LedgerOp :=
  if env.foldersAlreadyCreated then []
  else
    match env.createFoldersOutcome with
    | .ok _ => [LedgerOp.mark "folders" true none none none]
    | .error e => [LedgerOp.mark "folders" false none none (some e)]

/-- The products file selected by step 2's scan; a failed listing is
caught and treated as no file. -/
def productsPath (env : Env) : Option String :=
  match env.listProductsScan with
  | .error _ => none
  | .ok files => findProductsFile files

/-- Step 2 fatal error: the products transform raised while a products
file exists (lines 349-383). -/
def fatal2 (env : Env) : Option String :=
  match productsPath env with
  | none => none
  | some _ =>
    match env.processProductsOutcome with
    | .ok _ => none
    | .error e => some e

/-- Step 2 tracker events. -/
def events2 (env : Env) : List Ev :=
  match productsPath env with
  | none => [evMsg "process_products" StepStatus.skipped
      "No products file found in knowledge_base"]
  | some p =>
    ev "process_products" StepStatus.in_progress ::
    match env.processProductsOutcome with
    | .ok n => [evMsg "process_products" StepStatus.completed
        ("Processed " ++ toString n ++ " products from " ++ p)]
    | .error e => [evErr "process_products" StepStatus.failed e]

/-- Step 2 ledger writes. -/
def ops2 (env : Env) : List LedgerOp :=
  match productsPath env with
  | none => []
  | some _ =>
    match env.processProductsOutcome with
    | .ok n => [LedgerOp.mark "products" true none (some [("product_count", n)]) none]
    | .error e => [LedgerOp.mark "products" false none none (some e)]

/-- The categories file selected by step 2b's scan. -/
def categoriesPath (env : Env) : Option String :=
  match env.listCategoriesScan with
  | .error _ => none
  | .ok files => findCategoriesFile files

/-- Step 2b tracker events (lines 390-441); a transform failure is
recorded but never fatal. -/
def events3 (env : Env) : List Ev :=
  match categoriesPath env with
  | none => [evMsg "process_categories" StepStatus.skipped
      "No categories file found in knowledge_base"]
  | some p =>
    ev "process_categories" StepStatus.in_progress ::
    match env.processCategoriesOutcome with
    | .ok n => [evMsg "process_categories" StepStatus.completed
        ("Processed " ++ toString n ++ " categories from " ++ p)]
    | .error e => [evErr "process_categories" StepStatus.failed e]

/-- Step 2b ledger writes. -/
def ops3 (env : Env) : List LedgerOp :=
  match categoriesPath env with
  | none => []
  | some _ =>
    match env.processCategoriesOutcome with
    | .ok n => [LedgerOp.mark "categories" true none (some [("category_count", n)]) none]
    | .error e => [LedgerOp.mark "categories" false none none (some e)]

/-- The generic documents selected by step 3's scan. -/
def documentPaths (env : Env) : List String :=
  match env.listDocumentsScan with
  | .error _ => []
  | .ok files => findDocumentFiles files

/-- Completed-conversion message (lines 477-479). -/
def docConvertedMessage (res : ConvertDocsResult) : String :=
  "Converted " ++ toString res.document_count ++ " documents" ++
    (if res.skipped_files ≠ [] then
      " (skipped " ++ toString res.skipped_files.length ++ " files)" else "")

/-- Zero-conversions message (lines 486-488). -/
def docNoneConvertedMessage (res : ConvertDocsResult) : String :=
  "No documents were successfully converted" ++
    (if res.skipped_files ≠ [] then
      " (all " ++ toString res.skipped_files.length ++ " files were skipped/missing)"
     else "")

/-- Step 3 tracker events (lines 443-510); never fatal. -/
def events4 (env : Env) : List Ev :=
  if documentPaths env = [] then
    [evMsg "convert_documents" StepStatus.skipped
      "No documents found in knowledge_base (excluding products.csv and categories.csv)"]
  else
    ev "convert_documents" StepStatus.in_progress ::
    match env.convertDocumentsOutcome with
    | .ok res =>
      if res.document_count > 0 then
        [evMsg "convert_documents" StepStatus.completed (docConvertedMessage res)]
      else
        [evMsg "convert_documents" StepStatus.skipped (docNoneConvertedMessage res)]
    | .error e => [evErr "convert_documents" StepStatus.failed e]

/-- Step 3 ledger writes; only a strictly positive count is recorded. -/
def ops4 (env : Env) : List LedgerOp :=
  if documentPaths env = [] then []
  else
    match env.convertDocumentsOutcome with
    | .ok res =>
      if res.document_count > 0 then
        [LedgerOp.mark "documents" true none
          (some [("document_count", res.document_count)]) none]
      else []
    | .error e => [LedgerOp.mark "documents" false none none (some e)]

/-- The permission-error test of the setup_vertex handlers (lines 599
and 620): substring containment of either marker in the error text. -/
def isPermissionError (e : String) : Bool :=
  strContains e "IAM_PERMISSION_DENIED" || strContains e "Permission"

/-- The remediation hint used for permission failures (line 621). -/
def permissionHint : String :=
  "Vertex AI setup failed: Missing permissions. Run ./grant_vertex_permissions.sh to grant required permissions."

/-- Per-corpus import error texts accumulated in step 4 (lines 526-562);
each import runs only when its NDJSON artifact exists. -/
def importErrors (env : Env) : List String :=
  (if env.docsNdjsonExists then
     match env.importDocsOutcome with
     | .error e => ["documents: " ++ e]
     | .ok _ => []
   else []) ++
  (if env.productsNdjsonExists then
     match env.importProductsOutcome with
     | .error e => ["products: " ++ e]
     | .ok _ => []
   else []) ++
  (if env.categoriesNdjsonExists then
     match env.importCategoriesOutcome with
     | .error e => ["categories: " ++ e]
     | .ok _ => []
   else [])

/-- Names of the corpora imported successfully. -/
def importSuccess (env : Env) : List String :=
  (if env.docsNdjsonExists then
     match env.importDocsOutcome with
     | .ok _ => ["documents"]
     | .error _ => []
   else []) ++
  (if env.productsNdjsonExists then
     match env.importProductsOutcome with
     | .ok _ => ["products"]
     | .error _ => []
   else []) ++
  (if env.categoriesNdjsonExists then
     match env.importCategoriesOutcome with
     | .ok _ => ["categories"]
     | .error _ => []
   else [])

/-- Step 4 success message (lines 564-605). -/
def vertexMessage (a : OnboardArgs) (env : Env) : String :=
  let m1 := "Vertex AI Search datastore configured" ++
    (if a.shop_url ≠ "" then " with website crawling for " ++ a.shop_url else "")
  let m2 := m1 ++
    (if importSuccess env ≠ [] then
      ". Successfully imported: " ++ String.intercalate ", " (importSuccess env)
     else "")
  let errs := importErrors env
  if errs ≠ [] then
    if errs.any isPermissionError then
      m2 ++ ". Import failed due to missing permissions. Run ./grant_vertex_permissions.sh to fix."
    else
      m2 ++ ". Import errors: " ++ toString errs.length ++ " file(s) failed"
  else m2

/-- Step 4 fatal error: a datastore-creation exception is re-raised
unless its text matches the permission markers (lines 617-634). -/
def fatal5 (env : Env) : Option String :=
  match env.createDatastoreRaises with
  | none => none
  | some e => if isPermissionError e then none else some e

/-- Step 4 tracker events. -/
def events5 (a : OnboardArgs) (env : Env) : List Ev :=
  ev "setup_vertex" StepStatus.in_progress ::
  match env.createDatastoreRaises with
  | none => [evMsg "setup_vertex" StepStatus.completed (vertexMessage a env)]
  | some e =>
    if isPermissionError e then
      [evErr "setup_vertex" StepStatus.failed permissionHint]
    else
      [evErr "setup_vertex" StepStatus.failed e]

/-- Step 4 ledger writes (lines 572-595): the vertex mark, and — when
the UPDATE succeeds — the vertex reference taken from the top-level
`datastore_id`/`status` lookups on the `create_datastore` dict, with
the fallback id and the fallback 'error' status. -/
def ops5 (a : OnboardArgs) (env : Env) : List LedgerOp :=
  match env.createDatastoreRaises with
  | none =>
    let ds := createDatastoreResult a.shop_url env.websiteDatastoreInfo
      env.documentsDatastoreInfo
    let vid :=
      match ds.lookup "datastore_id" with
      | some v => pyValStr v
      | none => a.merchant_id ++ "-engine"
    let vstat :=
      match ds.lookup "status" with
      | some (PyVal.pystr s) => if s = "created" || s = "exists" then "active" else "error"
      | _ => "error"
    [LedgerOp.mark "vertex" true none none none] ++
      onlyIf env.vertexDbUpdateOk [LedgerOp.setVertexRef vid vstat]
  | some _ => []

/-- Step 5 fatal error (config generation, lines 636-680). -/
def fatal6 (env : Env) : Option String :=
  match env.generateConfigOutcome with
  | .ok _ => none
  | .error e => some e

/-- Step 5 tracker events. -/
def events6 (env : Env) : List Ev :=
  ev "generate_config" StepStatus.in_progress ::
  match env.generateConfigOutcome with
  | .ok _ => [evMsg "generate_config" StepStatus.completed
      "Configuration generated successfully"]
  | .error e => [evErr "generate_config" StepStatus.failed e]

/-- Step 5 ledger writes; `config_result.get('config_path', default)`. -/
def ops6 (a : OnboardArgs) (env : Env) : List LedgerOp :=
  match env.generateConfigOutcome with
  | .ok p => [LedgerOp.mark "config" true
      (some [("config_path",
        p.getD ("merchants/" ++ a.merchant_id ++ "/merchant_config.json"))])
      none none]
  | .error e => [LedgerOp.mark "config" false none none (some e)]

/-- The first fatal error of the run, if any: steps 2b and 3 never
abort, so only steps 0, 1, 2, 4 and 5 contribute. -/
def firstFatal (env : Env) : Option String :=
  optOr (fatal0 env) (optOr (fatal1 env) (optOr (fatal2 env)
    (optOr (fatal5 env) (fatal6 env))))

/-- Was step 1 reached? -/
def reached1 (env : Env) : Bool := (fatal0 env).isNone

/-- Was step 2 reached? -/
def reached2 (env : Env) : Bool := reached1 env && (fatal1 env).isNone

/-- Were steps 2b, 3 and 4 reached?  (They follow step 2, and steps 2b
and 3 cannot abort.) -/
def reached5 (env : Env) : Bool := reached2 env && (fatal2 env).isNone

/-- Was step 5 reached? -/
def reached6 (env : Env) : Bool := reached5 env && (fatal5 env).isNone

/-- Closing block: the success path marks finalize completed (lines
682-691); any fatal error lands in the outer handler which marks
finalize failed with the error text (lines 695-706). -/
def eventsFinal (env : Env) : List Ev :=
  match firstFatal env with
  | none => [evMsg "finalize" StepStatus.completed "Onboarding completed successfully"]
  | some e => [evErr "finalize" StepStatus.failed e]

/-- Closing ledger write: the onboarding flag, true on success, false
with the error on any fatal failure. -/
def opsFinal (env : Env) : List LedgerOp :=
  match firstFatal env with
  | none => [LedgerOp.mark "onboarding" true none none none]
  | some e => [LedgerOp.mark "onboarding" false none none (some e)]

/-- All tracker events of one `process_onboarding` run, in order. -/
def processOnboardingEvents (a : OnboardArgs) (env : Env) : List Ev :=
  events0 env
    ++ onlyIf (reached1 env) (events1 env)
    ++ onlyIf (reached2 env) (events2 env)
    ++ onlyIf (reached5 env) (events3 env)
    ++ onlyIf (reached5 env) (events4 env)
    ++ onlyIf (reached5 env) (events5 a env)
    ++ onlyIf (reached6 env) (events6 env)
    ++ eventsFinal env

/-- All ledger operations of one `process_onboarding` run, in order. -/
def processOnboardingLedgerOps (a : OnboardArgs) (env : Env) : List LedgerOp :=
  ops0 a env
    ++ onlyIf (reached1 env) (ops1 env)
    ++ onlyIf (reached2 env) (ops2 env)
    ++ onlyIf (reached5 env) (ops3 env)
    ++ onlyIf (reached5 env) (ops4 env)
    ++ onlyIf (reached5 env) (ops5 a env)
    ++ onlyIf (reached6 env) (ops6 a env)
    ++ opsFinal env

/-- Fold the run's tracker events into the job created by `/onboard`. -/
def applyEvents (j : Job) (evs : List Ev) : Job :=
  evs.foldl (fun j e => updateStepStatus j e.step e.status e.message e.error) j

/-- The tracked job after a full run. -/
def finalTrackerJob (a : OnboardArgs) (env : Env) (now : Nat) : Job :=
  applyEvents (createJob a.merchant_id a.user_id now) (processOnboardingEvents a env)

/-- The durable merchant row after a full run, starting from `db0`. -/
def finalLedger (a : OnboardArgs) (env : Env) (db0 : Option MerchantRow) :
    Option MerchantRow :=
  applyLedgerOps db0 (processOnboardingLedgerOps a env)

/-! ## Helper lemmas about the tracker -/

/-- The seven step names of a tracked job, in creation order. -/
def trackedStepNames : List String :=
  ["create_folders", "process_products", "process_categories", "convert_documents",
   "setup_vertex", "generate_config", "finalize"]

theorem lookup_setStep (steps : List (String × StepRec)) (name key : String)
    (f : StepRec → StepRec) :
    (setStep steps name f).lookup key =
      if key = name then (steps.lookup key).map f else steps.lookup key := by
  induction steps with
  | nil => simp [setStep]
  | cons p rest ih =>
    obtain ⟨k, v⟩ := p
    by_cases hpn : k = name
    · subst hpn
      by_cases hkp : key = k
      · subst hkp
        simp [setStep, List.lookup]
      · have h1 : (key == k) = false := by simp [hkp]
        have h2 : ¬ key = k := hkp
        simp [setStep, List.lookup, h1, ih, h2]
    · by_cases hkp : key = k
      · subst hkp
        have h2 : ¬ key = name := hpn
        simp [setStep, List.lookup, hpn, h2]
      · have h1 : (key == k) = false := by simp [hkp]
        simp [setStep, List.lookup, hpn, h1, ih]

theorem updateStepStatus_unknown (job : Job) (name : String) (st : StepStatus)
    (m e : Option String) (h : job.steps.lookup name = none) :
    updateStepStatus job name st m e = job := by
  simp [updateStepStatus, h]

theorem lookup_updateStepStatus_other (job : Job) (name : String) (st : StepStatus)
    (m e : Option String) (key : String) (h : key ≠ name) :
    ((updateStepStatus job name st m e).steps).lookup key = job.steps.lookup key := by
  unfold updateStepStatus
  cases hl : job.steps.lookup name with
  | none => simp
  | some r =>
    simp only
    cases st <;> cases m <;> (repeat' split) <;> simp [lookup_setStep, h]

theorem lookup_updateStepStatus_self (job : Job) (name : String) (st : StepStatus)
    (m e : Option String) (h : (job.steps.lookup name).isSome = true) :
    (((updateStepStatus job name st m e).steps).lookup name).map StepRec.status
      = some st := by
  unfold updateStepStatus
  cases hl : job.steps.lookup name with
  | none => rw [hl] at h; simp at h
  | some r =>
    simp only
    cases st <;> cases m <;> (repeat' split) <;> simp [lookup_setStep, hl]

theorem lookup_none_of_not_mem (l : List (String × StepRec)) (name : String)
    (h : ¬ name ∈ l.map Prod.fst) : l.lookup name = none := by
  induction l with
  | nil => rfl
  | cons p rest ih =>
    simp only [List.map_cons, List.mem_cons, not_or] at h
    have h1 : (name == p.1) = false := by simp [h.1]
    simp [List.lookup, h1, ih h.2]

theorem lookup_isSome_of_mem (l : List (String × StepRec)) (name : String)
    (h : name ∈ l.map Prod.fst) : (l.lookup name).isSome = true := by
  induction l with
  | nil => simp at h
  | cons p rest ih =>
    by_cases h1 : name = p.1
    · have : (name == p.1) = true := by simp [h1]
      simp [List.lookup, this]
    · have h2 : (name == p.1) = false := by simp [h1]
      simp only [List.map_cons, List.mem_cons] at h
      simp [List.lookup, h2, ih (h.resolve_left h1)]

/-! ## Claim C1 -/

/-- Claim C1, counterexample: the Progress Tracker's start operation
creates a run with only seven steps — there is no `create_merchant_record`
step and the search step is named `setup_vertex`, not
`setup_search_index` — and an advance for `create_merchant_record`
leaves the run completely unchanged instead of updating that step. -/
theorem C1_counterexample :
    ((createJob "m" "u" 0).steps.map Prod.fst
        = ["create_folders", "process_products", "process_categories",
           "convert_documents", "setup_vertex", "generate_config", "finalize"])
    ∧ (createJob "m" "u" 0).steps.lookup "create_merchant_record" = none
    ∧ updateStepStatus (createJob "m" "u" 0) "create_merchant_record"
        StepStatus.in_progress none none = createJob "m" "u" 0 := by
  decide

/-- Claim C1 as amended: for every merchant, start creates a fresh run
containing exactly the 7 fixed steps create_folders, process_products,
process_categories, convert_documents, setup_vertex, generate_config,
finalize, each with status pending and overall status pending; advance
accepts exactly these 7 step names — an advance for any other name,
including the orchestrator's create_merchant_record advances, is
silently ignored — and an advance for an accepted name updates that
step's status in the run. -/
theorem C1_seven_step_run (m u : String) (now : Nat) :
    ((createJob m u now).steps.map Prod.fst = trackedStepNames)
    ∧ (createJob m u now).status = JobStatus.pending
    ∧ (∀ p ∈ (createJob m u now).steps, p.2.status = StepStatus.pending)
    ∧ (∀ name, ¬ name ∈ trackedStepNames →
        ∀ st msg err, updateStepStatus (createJob m u now) name st msg err
          = createJob m u now)
    ∧ (∀ name, name ∈ trackedStepNames →
        ∀ st msg err,
          (((updateStepStatus (createJob m u now) name st msg err).steps).lookup
              name).map StepRec.status = some st) := by
  refine ⟨rfl, rfl, ?_, ?_, ?_⟩
  · intro p hp
    fin_cases hp <;> rfl
  · intro name hname st msg err
    exact updateStepStatus_unknown _ _ _ _ _
      (lookup_none_of_not_mem _ _ (by exact hname))
  · intro name hname st msg err
    exact lookup_updateStepStatus_self _ _ _ _ _
      (lookup_isSome_of_mem _ _ (by exact hname))

/-- Witness for C1_seven_step_run at concrete inputs: the unknown name
`create_merchant_record` is dropped, while an accepted name is updated. -/
theorem C1_seven_step_run_witness :
    updateStepStatus (createJob "m" "u" 0) "create_merchant_record"
        StepStatus.in_progress none none = createJob "m" "u" 0
    ∧ (((updateStepStatus (createJob "m" "u" 0) "create_folders"
        StepStatus.in_progress none none).steps).lookup "create_folders").map
        StepRec.status = some StepStatus.in_progress :=
  ⟨(C1_seven_step_run "m" "u" 0).2.2.2.1 "create_merchant_record" (by decide)
      StepStatus.in_progress none none,
   (C1_seven_step_run "m" "u" 0).2.2.2.2 "create_folders" (by decide)
      StepStatus.in_progress none none⟩

/-! ## Claim C5 -/

/-- Claim C5, counterexample: advancing `process_products` to
in_progress while `create_folders` is failed sets the overall status to
in_progress, not failed — `update_step_status` overwrites a failed
overall status on every in_progress advance, so "overall failed iff some
step failed" does not hold after every call. -/
theorem C5_counterexample :
    (updateStepStatus
        (updateStepStatus (createJob "m" "u" 0) "create_folders"
          StepStatus.failed none (some "boom"))
        "process_products" StepStatus.in_progress none none).status
      = JobStatus.in_progress
    ∧ (((updateStepStatus
        (updateStepStatus (createJob "m" "u" 0) "create_folders"
          StepStatus.failed none (some "boom"))
        "process_products" StepStatus.in_progress none none).steps).lookup
        "create_folders").map StepRec.status = some StepStatus.failed := by
  decide

/-- Claim C5 as amended: after an advance for a tracked step, the overall
status is completed iff every step is completed or skipped; otherwise it
is driven by the advanced status alone — an in_progress advance sets it
to in_progress, a failed advance sets it to failed, and a completed,
skipped or pending advance leaves the previous overall status in place.
In particular a failed overall status is overwritten by a later
in_progress advance of a different step. -/
theorem C5_overall_status_rule (job : Job) (name : String) (st : StepStatus)
    (m e : Option String) (h : (job.steps.lookup name).isSome = true) :
    (allStepsDone (updateStepStatus job name st m e).steps = true →
       (updateStepStatus job name st m e).status = JobStatus.completed)
    ∧ (allStepsDone (updateStepStatus job name st m e).steps = false →
       st = StepStatus.in_progress →
       (updateStepStatus job name st m e).status = JobStatus.in_progress)
    ∧ (allStepsDone (updateStepStatus job name st m e).steps = false →
       st = StepStatus.failed →
       (updateStepStatus job name st m e).status = JobStatus.failed)
    ∧ (allStepsDone (updateStepStatus job name st m e).steps = false →
       (st = StepStatus.completed ∨ st = StepStatus.skipped ∨ st = StepStatus.pending) →
       (updateStepStatus job name st m e).status = job.status) := by
  unfold updateStepStatus
  cases hl : job.steps.lookup name with
  | none => rw [hl] at h; simp at h
  | some r =>
    simp only
    cases st <;> cases m <;> (repeat' split) <;> simp_all

/-- Witness for C5_overall_status_rule: the concrete failed-then-advance
scenario, showing the in_progress override of a failed overall status. -/
theorem C5_overall_status_rule_witness :
    (updateStepStatus
        (updateStepStatus (createJob "m" "u" 0) "create_folders"
          StepStatus.failed none (some "boom"))
        "process_products" StepStatus.in_progress none none).status
      = JobStatus.in_progress :=
  (C5_overall_status_rule
      (updateStepStatus (createJob "m" "u" 0) "create_folders"
        StepStatus.failed none (some "boom"))
      "process_products" StepStatus.in_progress none none (by decide)).2.1
    (by decide) rfl

/-! ## Claim C2 -/

theorem find?_first_match (p : String → Bool) (pre post : List String) (f : String)
    (hpre : ∀ g ∈ pre, p g = false) (hf : p f = true) :
    (pre ++ f :: post).find? p = some f := by
  induction pre with
  | nil => simpa using List.find?_cons_of_pos post hf
  | cons g rest ih =>
    have hg : p g = false := hpre g (by simp)
    simp only [List.cons_append]
    rw [List.find?_cons_of_neg _ (by simp [hg])]
    exact ih (fun x hx => hpre x (by simp [hx]))

/-- Claim C2, counterexample: with `products.csv` listed before
`products.json` (the lexicographic listing order of a blob store), the
scan selects `products.csv` — the loop takes the first basename match in
listing order, not the highest-priority extension; and a lone
`categories.json` is never selected as the categories file (the
categories name set has no `.json` entry) — it falls through to the
generic documents instead. -/
theorem C2_counterexample :
    findProductsFile
      ["merchants/m/knowledge_base/products.csv",
       "merchants/m/knowledge_base/products.json"]
      = some "merchants/m/knowledge_base/products.csv"
    ∧ findCategoriesFile ["merchants/m/knowledge_base/categories.json"] = none
    ∧ findDocumentFiles ["merchants/m/knowledge_base/categories.json"]
      = ["merchants/m/knowledge_base/categories.json"] := by
  exact ⟨rfl, rfl, rfl⟩

/-- Claim C2 as amended: the classifier selects, per role, the first
file in listing order whose lowercased basename is exactly one of the
role's fixed names (products.json/csv/xlsx/xls for products,
categories.csv/xlsx/xls for categories) — priority between extensions is
listing order, not .json over .csv over .xlsx; a file named
categories.json is never selected for the categories role and is instead
classified as a generic document. -/
theorem C2_first_match (pre post : List String) (f : String) :
    ((∀ g ∈ pre, productFileNames.contains (basenameLower g) = false) →
      productFileNames.contains (basenameLower f) = true →
      findProductsFile (pre ++ f :: post) = some f)
    ∧ ((∀ g ∈ pre, categoryFileNames.contains (basenameLower g) = false) →
      categoryFileNames.contains (basenameLower f) = true →
      findCategoriesFile (pre ++ f :: post) = some f)
    ∧ (∀ files, ∀ g ∈ files, basenameLower g = "categories.json" →
        findCategoriesFile files ≠ some g)
    ∧ (basenameLower f = "categories.json" → f ∈ findDocumentFiles (pre ++ f :: post)) := by
  refine ⟨?_, ?_, ?_, ?_⟩
  · intro hpre hf
    exact find?_first_match _ pre post f hpre hf
  · intro hpre hf
    exact find?_first_match _ pre post f hpre hf
  · intro files g _ hg hsel
    have hp := List.find?_some hsel
    rw [hg] at hp
    simp [categoryFileNames] at hp
  · intro hf
    refine List.mem_filter.mpr ⟨by simp, ?_⟩
    rw [hf]
    decide

/-- Witness for C2_first_match at concrete listings: first-match
selection of products.xlsx ahead of products.json, the non-selection of
categories.json, and its classification as a document. -/
theorem C2_first_match_witness :
    findProductsFile
      ["merchants/m/knowledge_base/readme.pdf",
       "merchants/m/knowledge_base/products.xlsx",
       "merchants/m/knowledge_base/products.json"]
      = some "merchants/m/knowledge_base/products.xlsx"
    ∧ findCategoriesFile ["merchants/m/knowledge_base/categories.json"]
        ≠ some "merchants/m/knowledge_base/categories.json"
    ∧ "merchants/m/knowledge_base/categories.json"
        ∈ findDocumentFiles ["merchants/m/knowledge_base/categories.json"] :=
  ⟨(C2_first_match ["merchants/m/knowledge_base/readme.pdf"]
      ["merchants/m/knowledge_base/products.json"]
      "merchants/m/knowledge_base/products.xlsx").1
      (by decide) (by decide),
   (C2_first_match [] [] "").2.2.1 _ "merchants/m/knowledge_base/categories.json"
      (by decide) (by decide),
   (C2_first_match [] [] "merchants/m/knowledge_base/categories.json").2.2.2
      (by decide)⟩

/-! ## Claim C9 -/

theorem isAllowedIdChar_of_mem_replaceDisallowed (l : List Char) (c : Char)
    (h : c ∈ replaceDisallowed l) : isAllowedIdChar c = true := by
  simp only [replaceDisallowed, List.mem_map] at h
  obtain ⟨a, _, ha⟩ := h
  by_cases hall : isAllowedIdChar a = true
  · rw [← ha]; simp [hall]
  · rw [← ha]; simp [hall]; rfl

theorem mem_of_mem_collapseHyphens : ∀ (l : List Char), ∀ c ∈ collapseHyphens l, c ∈ l
  | [] => by simp [collapseHyphens]
  | [a] => by simp [collapseHyphens]
  | a :: b :: rest => by
    intro c hc
    simp only [collapseHyphens] at hc
    split at hc
    · exact List.mem_cons_of_mem _ (mem_of_mem_collapseHyphens (b :: rest) c hc)
    · rcases List.mem_cons.mp hc with h | h
      · simp [h]
      · exact List.mem_cons_of_mem _ (mem_of_mem_collapseHyphens (b :: rest) c h)

theorem collapseHyphens_cons : ∀ (c : Char) (l : List Char),
    ∃ t, collapseHyphens (c :: l) = c :: t
  | _, [] => ⟨[], rfl⟩
  | c, b :: rest => by
    simp only [collapseHyphens]
    split
    · rename_i hcb
      simp only [Bool.and_eq_true, decide_eq_true_eq] at hcb
      obtain ⟨t, ht⟩ := collapseHyphens_cons b rest
      exact ⟨t, by rw [ht, hcb.1, hcb.2]⟩
    · exact ⟨collapseHyphens (b :: rest), rfl⟩

theorem noDoubleHyphen_collapseHyphens : ∀ (l : List Char),
    noDoubleHyphen (collapseHyphens l) = true
  | [] => rfl
  | [_] => rfl
  | a :: b :: rest => by
    simp only [collapseHyphens]
    split
    · exact noDoubleHyphen_collapseHyphens (b :: rest)
    · rename_i hab
      obtain ⟨t, ht⟩ := collapseHyphens_cons b rest
      rw [ht]
      have h2 : noDoubleHyphen (b :: t) = true :=
        ht ▸ noDoubleHyphen_collapseHyphens (b :: rest)
      have hx : (decide (a = '-') && decide (b = '-')) = false := by
        cases hy : (decide (a = '-') && decide (b = '-')) with
        | true => exact absurd hy hab
        | false => rfl
      simp only [noDoubleHyphen, Bool.and_eq_true]
      exact ⟨by simp [hx], h2⟩

theorem noDoubleHyphen_tail : ∀ (c : Char) (l : List Char),
    noDoubleHyphen (c :: l) = true → noDoubleHyphen l = true
  | _, [] => fun _ => rfl
  | _, _ :: _ => fun h => ((Bool.and_eq_true _ _).mp h).2

theorem noDoubleHyphen_append_right : ∀ (l t : List Char),
    noDoubleHyphen (l ++ t) = true → noDoubleHyphen t = true
  | [], _ => fun h => h
  | c :: l, t => fun h =>
    noDoubleHyphen_append_right l t (noDoubleHyphen_tail c (l ++ t) h)

theorem noDoubleHyphen_append_left : ∀ (l t : List Char),
    noDoubleHyphen (l ++ t) = true → noDoubleHyphen l = true
  | [], _ => fun _ => rfl
  | [_], _ => fun _ => rfl
  | a :: b :: rest, t => by
    intro h
    simp only [List.cons_append, noDoubleHyphen, Bool.and_eq_true] at h
    simp only [noDoubleHyphen, Bool.and_eq_true]
    exact ⟨h.1, noDoubleHyphen_append_left (b :: rest) t h.2⟩

theorem stripHyphens_subset (l : List Char) : ∀ c ∈ stripHyphens l, c ∈ l := by
  intro c hc
  simp only [stripHyphens, List.mem_reverse] at hc
  have h1 := (List.dropWhile_sublist (l := (l.dropWhile (fun c => c = '-')).reverse)
    (p := fun c => c = '-')).subset hc
  rw [List.mem_reverse] at h1
  exact (List.dropWhile_sublist (l := l) (p := fun c => c = '-')).subset h1

theorem noDoubleHyphen_stripHyphens (l : List Char)
    (h : noDoubleHyphen l = true) : noDoubleHyphen (stripHyphens l) = true := by
  set p : Char → Bool := fun c => c = '-' with hp
  have hm : noDoubleHyphen (l.dropWhile p) = true := by
    have := List.takeWhile_append_dropWhile (p := p) (l := l)
    exact noDoubleHyphen_append_right (l.takeWhile p) (l.dropWhile p) (by rw [this]; exact h)
  set m := l.dropWhile p with hmdef
  have key : (m.reverse.dropWhile p).reverse ++ (m.reverse.takeWhile p).reverse = m := by
    rw [← List.reverse_append, List.takeWhile_append_dropWhile, List.reverse_reverse]
  have : noDoubleHyphen ((m.reverse.dropWhile p).reverse) = true :=
    noDoubleHyphen_append_left _ _ (by rw [key]; exact hm)
  simpa [stripHyphens, hmdef] using this

theorem replaceDisallowed_eq_self (l : List Char)
    (h : l.all isAllowedIdChar = true) : replaceDisallowed l = l := by
  induction l with
  | nil => rfl
  | cons c rest ih =>
    simp only [List.all_cons, Bool.and_eq_true] at h
    rw [show replaceDisallowed (c :: rest)
        = (if isAllowedIdChar c = true then c else '-') :: replaceDisallowed rest
      from rfl, if_pos h.1, ih h.2]

theorem collapseHyphens_eq_self : ∀ (l : List Char),
    noDoubleHyphen l = true → collapseHyphens l = l
  | [] => fun _ => rfl
  | [_] => fun _ => rfl
  | a :: b :: rest => by
    intro h
    have h1 := (Bool.and_eq_true _ _).mp h
    have hcond : (decide (a = '-') && decide (b = '-')) = false := by
      cases hy : (decide (a = '-') && decide (b = '-')) with
      | true => have hb := h1.1; rw [hy] at hb; simp at hb
      | false => rfl
    simp only [collapseHyphens, hcond, Bool.false_eq_true, if_false]
    rw [collapseHyphens_eq_self (b :: rest) h1.2]

theorem dropWhile_eq_self_of_head (p : Char → Bool) (l : List Char)
    (h : ∀ a, l.head? = some a → p a = false) : l.dropWhile p = l := by
  cases l with
  | nil => rfl
  | cons a rest => simp [List.dropWhile_cons, h a rfl]

theorem stripHyphens_eq_self (l : List Char)
    (hhead : ∀ a, l.head? = some a → a ≠ '-')
    (hlast : ∀ a, l.getLast? = some a → a ≠ '-') : stripHyphens l = l := by
  have h1 : l.dropWhile (fun c => c = '-') = l :=
    dropWhile_eq_self_of_head _ l (fun a ha => by simp [hhead a ha])
  have h2 : l.reverse.dropWhile (fun c => c = '-') = l.reverse := by
    refine dropWhile_eq_self_of_head _ _ (fun a ha => ?_)
    rw [List.head?_reverse] at ha
    simp [hlast a ha]
  simp [stripHyphens, h1, h2]

/-- Claim C9, confirmed: the corpus-record identifier sanitizer, with
any non-empty well-formed positional fallback id, never yields an empty
id, always yields an id over `[A-Za-z0-9_-]` with no consecutive
hyphens, and is the identity on identifiers that are already in
sanitized form (non-empty, all characters allowed, no duplicate and no
leading/trailing hyphens). -/
theorem C9_sanitizer_safe_and_idempotent (raw fb : String)
    (hfb_ne : fb ≠ "")
    (hfb_chars : fb.data.all isAllowedIdChar = true)
    (hfb_dd : noDoubleHyphen fb.data = true) :
    sanitizeIdOr raw fb ≠ ""
    ∧ (sanitizeIdOr raw fb).data.all isAllowedIdChar = true
    ∧ noDoubleHyphen (sanitizeIdOr raw fb).data = true
    ∧ (isSanitizedId raw = true → sanitizeId raw = raw) := by
  refine ⟨?_, ?_, ?_, ?_⟩
  · unfold sanitizeIdOr
    split
    · exact hfb_ne
    · assumption
  · unfold sanitizeIdOr
    split
    · exact hfb_chars
    · rw [List.all_eq_true]
      intro c hc
      change c ∈ (sanitizeId raw).data at hc
      simp only [sanitizeId] at hc
      exact isAllowedIdChar_of_mem_replaceDisallowed _ c
        (mem_of_mem_collapseHyphens _ c (stripHyphens_subset _ c hc))
  · unfold sanitizeIdOr
    split
    · exact hfb_dd
    · show noDoubleHyphen (sanitizeId raw).data = true
      simp only [sanitizeId]
      exact noDoubleHyphen_stripHyphens _ (noDoubleHyphen_collapseHyphens _)
  · intro h
    simp only [isSanitizedId, Bool.and_eq_true, bne_iff_ne] at h
    obtain ⟨⟨⟨⟨hne, hall⟩, hdd⟩, hhead⟩, hlast⟩ := h
    simp only [sanitizeId]
    rw [replaceDisallowed_eq_self _ hall, collapseHyphens_eq_self _ hdd,
      stripHyphens_eq_self _
        (fun a ha hc => hhead (by rw [ha, hc]))
        (fun a ha hc => hlast (by rw [ha, hc]))]

/-- Witness for C9 at concrete inputs: a raw name full of disallowed
characters with the positional fallback id `product-0`, plus the
idempotence direction on an already-sanitized id. -/
theorem C9_sanitizer_witness :
    (sanitizeIdOr "Men!s  Shoes??" "product-0" ≠ ""
      ∧ (sanitizeIdOr "Men!s  Shoes??" "product-0").data.all isAllowedIdChar = true
      ∧ noDoubleHyphen (sanitizeIdOr "Men!s  Shoes??" "product-0").data = true)
    ∧ sanitizeId "abc_X-9" = "abc_X-9" :=
  ⟨⟨(C9_sanitizer_safe_and_idempotent "Men!s  Shoes??" "product-0"
      (by decide) (by decide) (by decide)).1,
    (C9_sanitizer_safe_and_idempotent "Men!s  Shoes??" "product-0"
      (by decide) (by decide) (by decide)).2.1,
    (C9_sanitizer_safe_and_idempotent "Men!s  Shoes??" "product-0"
      (by decide) (by decide) (by decide)).2.2.1⟩,
   (C9_sanitizer_safe_and_idempotent "abc_X-9" "product-0"
      (by decide) (by decide) (by decide)).2.2.2 (by decide)⟩

/-! ## Claim C6 -/

/-- First upsert call of the C6 scenario: `shop_url` supplied, no kwargs
optional fields. -/
def c6FirstCall : CreateMerchantArgs :=
  { merchant_id := "m", user_id := "u", shop_name := "Shop"
    shop_url := some "https://x.example", bot_name := some "Bot"
    platform := none, custom_url_pattern := none
    target_customer := none, customer_persona := none, bot_tone := none
    prompt_text := none, top_questions := none, top_products := none
    primary_color := none, secondary_color := none, logo_url := none
    knowledge_base_title := none, knowledge_base_usage_description := none }

/-- Second upsert call of the C6 scenario: a disjoint optional field set
(`target_customer` only); `shop_url` and `bot_name` take their Python
defaults (`None` resp. `"AI Assistant"`) because they were not passed. -/
def c6SecondCall : CreateMerchantArgs :=
  { merchant_id := "m", user_id := "u", shop_name := "Shop"
    shop_url := none, bot_name := some "AI Assistant"
    platform := none, custom_url_pattern := none
    target_customer := some "retail", customer_persona := none, bot_tone := none
    prompt_text := none, top_questions := none, top_products := none
    primary_color := none, secondary_color := none, logo_url := none
    knowledge_base_title := none, knowledge_base_usage_description := none }

/-- Claim C6, counterexample: `shop_url` and `bot_name` are base columns
of the dynamic INSERT, so every upsert overwrites them; a second call
that omits `shop_url` (Python default `None`) nulls out the value stored
by the first call instead of keeping it, and an omitted `bot_name`
resets it to the default "AI Assistant". -/
theorem C6_counterexample :
    (createMerchantUpsert none c6FirstCall).shop_url = some "https://x.example"
    ∧ (createMerchantUpsert (some (createMerchantUpsert none c6FirstCall))
        c6SecondCall).shop_url = none
    ∧ (createMerchantUpsert none c6FirstCall).bot_name = some "Bot"
    ∧ (createMerchantUpsert (some (createMerchantUpsert none c6FirstCall))
        c6SecondCall).bot_name = some "AI Assistant" := by
  decide

/-- Claim C6 as amended: on conflict, the union-of-field-sets behaviour
holds exactly for the thirteen kwargs-driven optional columns
(target_customer, customer_persona, bot_tone, prompt_text,
top_questions, top_products, primary_color, secondary_color, logo_url,
platform, custom_url_pattern, knowledge_base_title,
knowledge_base_usage_description): a supplied value overwrites, an
absent one keeps the previous column value.  The base columns user_id,
shop_name, shop_url and bot_name are rewritten by every call with that
call's values (NULL resp. the "AI Assistant" default when omitted),
`onboarding_status` is reset to pending, and `status` and all columns
never listed (step flags, counters, vertex reference, config path,
last_error) keep their previous values. -/
theorem C6_upsert_partial_update (old : MerchantRow) (a : CreateMerchantArgs) :
    (createMerchantUpsert (some old) a).target_customer
        = optOr a.target_customer old.target_customer
    ∧ (createMerchantUpsert (some old) a).customer_persona
        = optOr a.customer_persona old.customer_persona
    ∧ (createMerchantUpsert (some old) a).bot_tone = optOr a.bot_tone old.bot_tone
    ∧ (createMerchantUpsert (some old) a).prompt_text
        = optOr a.prompt_text old.prompt_text
    ∧ (createMerchantUpsert (some old) a).top_questions
        = optOr a.top_questions old.top_questions
    ∧ (createMerchantUpsert (some old) a).top_products
        = optOr a.top_products old.top_products
    ∧ (createMerchantUpsert (some old) a).primary_color
        = optOr a.primary_color old.primary_color
    ∧ (createMerchantUpsert (some old) a).secondary_color
        = optOr a.secondary_color old.secondary_color
    ∧ (createMerchantUpsert (some old) a).logo_url = optOr a.logo_url old.logo_url
    ∧ (createMerchantUpsert (some old) a).platform
        = optOr (truthyOpt a.platform) old.platform
    ∧ (createMerchantUpsert (some old) a).custom_url_pattern
        = optOr (truthyOpt a.custom_url_pattern) old.custom_url_pattern
    ∧ (createMerchantUpsert (some old) a).knowledge_base_title
        = optOr a.knowledge_base_title old.knowledge_base_title
    ∧ (createMerchantUpsert (some old) a).knowledge_base_usage_description
        = optOr a.knowledge_base_usage_description old.knowledge_base_usage_description
    ∧ (createMerchantUpsert (some old) a).user_id = a.user_id
    ∧ (createMerchantUpsert (some old) a).shop_name = a.shop_name
    ∧ (createMerchantUpsert (some old) a).shop_url = a.shop_url
    ∧ (createMerchantUpsert (some old) a).bot_name = a.bot_name
    ∧ (createMerchantUpsert (some old) a).onboarding_status = "pending"
    ∧ (createMerchantUpsert (some old) a).status = old.status
    ∧ (createMerchantUpsert (some old) a).step_products_processed
        = old.step_products_processed
    ∧ (createMerchantUpsert (some old) a).step_onboarding_completed
        = old.step_onboarding_completed
    ∧ (createMerchantUpsert (some old) a).product_count = old.product_count
    ∧ (createMerchantUpsert (some old) a).category_count = old.category_count
    ∧ (createMerchantUpsert (some old) a).document_count = old.document_count
    ∧ (createMerchantUpsert (some old) a).config_path = old.config_path
    ∧ (createMerchantUpsert (some old) a).vertex_datastore_id
        = old.vertex_datastore_id
    ∧ (createMerchantUpsert (some old) a).last_error = old.last_error := by
  exact ⟨rfl, rfl, rfl, rfl, rfl, rfl, rfl, rfl, rfl, rfl, rfl, rfl, rfl, rfl,
    rfl, rfl, rfl, rfl, rfl, rfl, rfl, rfl, rfl, rfl, rfl, rfl, rfl⟩

/-! ## Claim C7 -/

/-- The completion flag column of a ledger step key. -/
def MerchantRow.flagOf (r : MerchantRow) (k : StepKey) : Bool :=
  match k with
  | .merchant_record => r.step_merchant_record_completed
  | .folders => r.step_folders_created
  | .products => r.step_products_processed
  | .categories => r.step_categories_processed
  | .documents => r.step_documents_converted
  | .vertex => r.step_vertex_setup
  | .config => r.step_config_generated
  | .onboarding => r.step_onboarding_completed

/-- The completion timestamp column of a ledger step key. -/
def MerchantRow.flagAtOf (r : MerchantRow) (k : StepKey) : Option Nat :=
  match k with
  | .merchant_record => r.step_merchant_record_completed_at
  | .folders => r.step_folders_created_at
  | .products => r.step_products_processed_at
  | .categories => r.step_categories_processed_at
  | .documents => r.step_documents_converted_at
  | .vertex => r.step_vertex_setup_at
  | .config => r.step_config_generated_at
  | .onboarding => r.step_onboarding_completed_at

/-- The counter value a `counts` argument supplies for a key, `none`
when the dict is falsy or lacks the key. -/
def countsLookup (cs : Option (List (String × Nat))) (key : String) : Option Nat :=
  match cs with
  | some l => if l ≠ [] then l.lookup key else none
  | none => none

/-- The config path a `file_paths` argument supplies, `none` when the
dict is falsy or lacks the key. -/
def filePathsLookup (fps : Option (List (String × String))) : Option String :=
  match fps with
  | some l => if l ≠ [] then l.lookup "config_path" else none
  | none => none

theorem stepKeyOfName_name (k : StepKey) : stepKeyOfName (StepKey.name k) = some k := by
  cases k <;> rfl

theorem flagOf_setStepFlag_ne (r : MerchantRow) (k1 k2 : StepKey) (c : Bool)
    (now : Nat) (h : k1 ≠ k2) : (setStepFlag r k2 c now).flagOf k1 = r.flagOf k1 := by
  cases k1 <;> cases k2 <;> first | exact absurd rfl h | rfl

theorem flagAtOf_setStepFlag_ne (r : MerchantRow) (k1 k2 : StepKey) (c : Bool)
    (now : Nat) (h : k1 ≠ k2) :
    (setStepFlag r k2 c now).flagAtOf k1 = r.flagAtOf k1 := by
  cases k1 <;> cases k2 <;> first | exact absurd rfl h | rfl

theorem flagOf_applyFilePaths (r : MerchantRow) (fps : Option (List (String × String)))
    (k : StepKey) : (applyFilePaths r fps).flagOf k = r.flagOf k := by
  unfold applyFilePaths
  (repeat' split) <;> cases k <;> rfl

theorem flagAtOf_applyFilePaths (r : MerchantRow) (fps : Option (List (String × String)))
    (k : StepKey) : (applyFilePaths r fps).flagAtOf k = r.flagAtOf k := by
  unfold applyFilePaths
  (repeat' split) <;> cases k <;> rfl

theorem flagOf_applyCounts (r : MerchantRow) (cs : Option (List (String × Nat)))
    (k : StepKey) : (applyCounts r cs).flagOf k = r.flagOf k := by
  unfold applyCounts
  (repeat' split) <;> cases k <;> rfl

theorem flagAtOf_applyCounts (r : MerchantRow) (cs : Option (List (String × Nat)))
    (k : StepKey) : (applyCounts r cs).flagAtOf k = r.flagAtOf k := by
  unfold applyCounts
  (repeat' split) <;> cases k <;> rfl

theorem flagOf_applyOnboardingStatus (r : MerchantRow) (k2 : StepKey) (c : Bool)
    (now : Nat) (k : StepKey) :
    (applyOnboardingStatus r k2 c now).flagOf k = r.flagOf k := by
  unfold applyOnboardingStatus
  (repeat' split) <;> cases k <;> rfl

theorem flagAtOf_applyOnboardingStatus (r : MerchantRow) (k2 : StepKey) (c : Bool)
    (now : Nat) (k : StepKey) :
    (applyOnboardingStatus r k2 c now).flagAtOf k = r.flagAtOf k := by
  unfold applyOnboardingStatus
  (repeat' split) <;> cases k <;> rfl

theorem flagOf_applyLastError (r : MerchantRow) (err : Option String) (k : StepKey) :
    (applyLastError r err).flagOf k = r.flagOf k := by
  unfold applyLastError
  (repeat' split) <;> cases k <;> rfl

theorem flagAtOf_applyLastError (r : MerchantRow) (err : Option String) (k : StepKey) :
    (applyLastError r err).flagAtOf k = r.flagAtOf k := by
  unfold applyLastError
  (repeat' split) <;> cases k <;> rfl

theorem product_count_setStepFlag (r : MerchantRow) (k : StepKey) (c : Bool)
    (now : Nat) : (setStepFlag r k c now).product_count = r.product_count := by
  cases k <;> rfl

theorem category_count_setStepFlag (r : MerchantRow) (k : StepKey) (c : Bool)
    (now : Nat) : (setStepFlag r k c now).category_count = r.category_count := by
  cases k <;> rfl

theorem document_count_setStepFlag (r : MerchantRow) (k : StepKey) (c : Bool)
    (now : Nat) : (setStepFlag r k c now).document_count = r.document_count := by
  cases k <;> rfl

theorem config_path_setStepFlag (r : MerchantRow) (k : StepKey) (c : Bool)
    (now : Nat) : (setStepFlag r k c now).config_path = r.config_path := by
  cases k <;> rfl

theorem product_count_applyFilePaths (r : MerchantRow)
    (fps : Option (List (String × String))) :
    (applyFilePaths r fps).product_count = r.product_count := by
  unfold applyFilePaths
  (repeat' split) <;> rfl

theorem category_count_applyFilePaths (r : MerchantRow)
    (fps : Option (List (String × String))) :
    (applyFilePaths r fps).category_count = r.category_count := by
  unfold applyFilePaths
  (repeat' split) <;> rfl

theorem document_count_applyFilePaths (r : MerchantRow)
    (fps : Option (List (String × String))) :
    (applyFilePaths r fps).document_count = r.document_count := by
  unfold applyFilePaths
  (repeat' split) <;> rfl

theorem config_path_applyFilePaths (r : MerchantRow)
    (fps : Option (List (String × String))) :
    (applyFilePaths r fps).config_path = optOr (filePathsLookup fps) r.config_path := by
  unfold applyFilePaths filePathsLookup optOr
  (repeat' split) <;> simp_all

theorem product_count_applyCounts (r : MerchantRow)
    (cs : Option (List (String × Nat))) :
    (applyCounts r cs).product_count
      = optOr (countsLookup cs "product_count") r.product_count := by
  unfold applyCounts countsLookup optOr
  (repeat' split) <;> simp_all

theorem category_count_applyCounts (r : MerchantRow)
    (cs : Option (List (String × Nat))) :
    (applyCounts r cs).category_count
      = optOr (countsLookup cs "category_count") r.category_count := by
  unfold applyCounts countsLookup optOr
  (repeat' split) <;> simp_all

theorem document_count_applyCounts (r : MerchantRow)
    (cs : Option (List (String × Nat))) :
    (applyCounts r cs).document_count
      = optOr (countsLookup cs "document_count") r.document_count := by
  unfold applyCounts countsLookup optOr
  (repeat' split) <;> simp_all

theorem config_path_applyCounts (r : MerchantRow)
    (cs : Option (List (String × Nat))) :
    (applyCounts r cs).config_path = r.config_path := by
  unfold applyCounts
  (repeat' split) <;> rfl

theorem product_count_applyOnboardingStatus (r : MerchantRow) (k2 : StepKey)
    (c : Bool) (now : Nat) :
    (applyOnboardingStatus r k2 c now).product_count = r.product_count := by
  unfold applyOnboardingStatus
  (repeat' split) <;> rfl

theorem category_count_applyOnboardingStatus (r : MerchantRow) (k2 : StepKey)
    (c : Bool) (now : Nat) :
    (applyOnboardingStatus r k2 c now).category_count = r.category_count := by
  unfold applyOnboardingStatus
  (repeat' split) <;> rfl

theorem document_count_applyOnboardingStatus (r : MerchantRow) (k2 : StepKey)
    (c : Bool) (now : Nat) :
    (applyOnboardingStatus r k2 c now).document_count = r.document_count := by
  unfold applyOnboardingStatus
  (repeat' split) <;> rfl

theorem config_path_applyOnboardingStatus (r : MerchantRow) (k2 : StepKey)
    (c : Bool) (now : Nat) :
    (applyOnboardingStatus r k2 c now).config_path = r.config_path := by
  unfold applyOnboardingStatus
  (repeat' split) <;> rfl

theorem product_count_applyLastError (r : MerchantRow) (err : Option String) :
    (applyLastError r err).product_count = r.product_count := by
  unfold applyLastError
  (repeat' split) <;> rfl

theorem category_count_applyLastError (r : MerchantRow) (err : Option String) :
    (applyLastError r err).category_count = r.category_count := by
  unfold applyLastError
  (repeat' split) <;> rfl

theorem document_count_applyLastError (r : MerchantRow) (err : Option String) :
    (applyLastError r err).document_count = r.document_count := by
  unfold applyLastError
  (repeat' split) <;> rfl

theorem config_path_applyLastError (r : MerchantRow) (err : Option String) :
    (applyLastError r err).config_path = r.config_path := by
  unfold applyLastError
  (repeat' split) <;> rfl

/-- Claim C7, confirmed: marking one ledger step never touches a
different step's completion flag or timestamp, and the three counters
and the config path are each rewritten exactly when the call supplies
them and keep their previous value otherwise. -/
theorem C7_mark_step_frame (r : MerchantRow) (k1 k2 : StepKey) (h : k1 ≠ k2)
    (completed : Bool) (fps : Option (List (String × String)))
    (cs : Option (List (String × Nat))) (err : Option String) (now : Nat) :
    ((updateMerchantOnboardingStep r (StepKey.name k2) completed fps cs err now).2).flagOf k1
        = r.flagOf k1
    ∧ ((updateMerchantOnboardingStep r (StepKey.name k2) completed fps cs err now).2).flagAtOf k1
        = r.flagAtOf k1
    ∧ ((updateMerchantOnboardingStep r (StepKey.name k2) completed fps cs err now).2).product_count
        = optOr (countsLookup cs "product_count") r.product_count
    ∧ ((updateMerchantOnboardingStep r (StepKey.name k2) completed fps cs err now).2).category_count
        = optOr (countsLookup cs "category_count") r.category_count
    ∧ ((updateMerchantOnboardingStep r (StepKey.name k2) completed fps cs err now).2).document_count
        = optOr (countsLookup cs "document_count") r.document_count
    ∧ ((updateMerchantOnboardingStep r (StepKey.name k2) completed fps cs err now).2).config_path
        = optOr (filePathsLookup fps) r.config_path := by
  simp only [updateMerchantOnboardingStep, stepKeyOfName_name]
  refine ⟨?_, ?_, ?_, ?_, ?_, ?_⟩
  · rw [flagOf_applyLastError, flagOf_applyOnboardingStatus, flagOf_applyCounts,
      flagOf_applyFilePaths, flagOf_setStepFlag_ne r k1 k2 completed now h]
  · rw [flagAtOf_applyLastError, flagAtOf_applyOnboardingStatus, flagAtOf_applyCounts,
      flagAtOf_applyFilePaths, flagAtOf_setStepFlag_ne r k1 k2 completed now h]
  · rw [product_count_applyLastError, product_count_applyOnboardingStatus,
      product_count_applyCounts, product_count_applyFilePaths, product_count_setStepFlag]
  · rw [category_count_applyLastError, category_count_applyOnboardingStatus,
      category_count_applyCounts, category_count_applyFilePaths, category_count_setStepFlag]
  · rw [document_count_applyLastError, document_count_applyOnboardingStatus,
      document_count_applyCounts, document_count_applyFilePaths, document_count_setStepFlag]
  · rw [config_path_applyLastError, config_path_applyOnboardingStatus,
      config_path_applyCounts, config_path_applyFilePaths, config_path_setStepFlag]

/-- Witness for C7 at the spec's own scenario: mark products completed
with product_count 5, then mark categories completed; the products flag
is still true and product_count still 5. -/
theorem C7_mark_step_frame_witness :
    ((updateMerchantOnboardingStep
        (updateMerchantOnboardingStep (createMerchantUpsert none c6FirstCall)
          "products" true none (some [("product_count", 5)]) none 10).2
        "categories" true none none none 11).2).flagOf StepKey.products = true
    ∧ ((updateMerchantOnboardingStep
        (updateMerchantOnboardingStep (createMerchantUpsert none c6FirstCall)
          "products" true none (some [("product_count", 5)]) none 10).2
        "categories" true none none none 11).2).product_count = some 5 :=
  ⟨((C7_mark_step_frame
      (updateMerchantOnboardingStep (createMerchantUpsert none c6FirstCall)
        "products" true none (some [("product_count", 5)]) none 10).2
      StepKey.products StepKey.categories (by decide)
      true none none none 11).1).trans (by decide),
   ((C7_mark_step_frame
      (updateMerchantOnboardingStep (createMerchantUpsert none c6FirstCall)
        "products" true none (some [("product_count", 5)]) none 10).2
      StepKey.products StepKey.categories (by decide)
      true none none none 11).2.2.1).trans (by decide)⟩

/-! ## Claim C10 -/

theorem applyLedgerOps_append (db : Option MerchantRow) (l1 l2 : List LedgerOp) :
    applyLedgerOps db (l1 ++ l2) = applyLedgerOps (applyLedgerOps db l1) l2 := by
  simp [applyLedgerOps, List.foldl_append]

theorem applyLedgerOp_some (op : LedgerOp) (r : MerchantRow) :
    ∃ r', applyLedgerOp (some r) op = some r' := by
  cases op <;> exact ⟨_, rfl⟩

theorem applyLedgerOps_some : ∀ (ops : List LedgerOp) (r : MerchantRow),
    ∃ r', applyLedgerOps (some r) ops = some r'
  | [], r => ⟨r, rfl⟩
  | op :: ops, r => by
    obtain ⟨r1, hr1⟩ := applyLedgerOp_some op r
    obtain ⟨r2, hr2⟩ := applyLedgerOps_some ops r1
    exact ⟨r2, by simpa [applyLedgerOps, hr1] using hr2⟩

/-- Is the ledger operation a step mark (an UPDATE that never touches
the vertex reference columns)? -/
def isMark : LedgerOp → Bool
  | .mark _ _ _ _ _ => true
  | _ => false

theorem vertexId_setStepFlag (r : MerchantRow) (k : StepKey) (c : Bool) (now : Nat) :
    (setStepFlag r k c now).vertex_datastore_id = r.vertex_datastore_id := by
  cases k <;> rfl

theorem vertexStatus_setStepFlag (r : MerchantRow) (k : StepKey) (c : Bool) (now : Nat) :
    (setStepFlag r k c now).vertex_datastore_status = r.vertex_datastore_status := by
  cases k <;> rfl

theorem vertexId_applyFilePaths (r : MerchantRow) (fps : Option (List (String × String))) :
    (applyFilePaths r fps).vertex_datastore_id = r.vertex_datastore_id := by
  unfold applyFilePaths
  (repeat' split) <;> rfl

theorem vertexStatus_applyFilePaths (r : MerchantRow) (fps : Option (List (String × String))) :
    (applyFilePaths r fps).vertex_datastore_status = r.vertex_datastore_status := by
  unfold applyFilePaths
  (repeat' split) <;> rfl

theorem vertexId_applyCounts (r : MerchantRow) (cs : Option (List (String × Nat))) :
    (applyCounts r cs).vertex_datastore_id = r.vertex_datastore_id := by
  unfold applyCounts
  (repeat' split) <;> rfl

theorem vertexStatus_applyCounts (r : MerchantRow) (cs : Option (List (String × Nat))) :
    (applyCounts r cs).vertex_datastore_status = r.vertex_datastore_status := by
  unfold applyCounts
  (repeat' split) <;> rfl

theorem vertexId_applyOnboardingStatus (r : MerchantRow) (k : StepKey) (c : Bool)
    (now : Nat) :
    (applyOnboardingStatus r k c now).vertex_datastore_id = r.vertex_datastore_id := by
  unfold applyOnboardingStatus
  (repeat' split) <;> rfl

theorem vertexStatus_applyOnboardingStatus (r : MerchantRow) (k : StepKey) (c : Bool)
    (now : Nat) :
    (applyOnboardingStatus r k c now).vertex_datastore_status
      = r.vertex_datastore_status := by
  unfold applyOnboardingStatus
  (repeat' split) <;> rfl

theorem vertexId_applyLastError (r : MerchantRow) (err : Option String) :
    (applyLastError r err).vertex_datastore_id = r.vertex_datastore_id := by
  unfold applyLastError
  (repeat' split) <;> rfl

theorem vertexStatus_applyLastError (r : MerchantRow) (err : Option String) :
    (applyLastError r err).vertex_datastore_status = r.vertex_datastore_status := by
  unfold applyLastError
  (repeat' split) <;> rfl

theorem vertexRef_mark_frame (r : MerchantRow) (n : String) (c : Bool)
    (f : Option (List (String × String))) (cs : Option (List (String × Nat)))
    (e : Option String) (t : Nat) :
    ((updateMerchantOnboardingStep r n c f cs e t).2).vertex_datastore_id
        = r.vertex_datastore_id
    ∧ ((updateMerchantOnboardingStep r n c f cs e t).2).vertex_datastore_status
        = r.vertex_datastore_status := by
  unfold updateMerchantOnboardingStep
  cases stepKeyOfName n with
  | none => exact ⟨rfl, rfl⟩
  | some k =>
    constructor
    · rw [vertexId_applyLastError, vertexId_applyOnboardingStatus,
        vertexId_applyCounts, vertexId_applyFilePaths, vertexId_setStepFlag]
    · rw [vertexStatus_applyLastError, vertexStatus_applyOnboardingStatus,
        vertexStatus_applyCounts, vertexStatus_applyFilePaths, vertexStatus_setStepFlag]

theorem marks_preserve_vertexRef : ∀ (ops : List LedgerOp),
    (∀ op ∈ ops, isMark op = true) → ∀ (r : MerchantRow),
    ∃ r', applyLedgerOps (some r) ops = some r'
      ∧ r'.vertex_datastore_id = r.vertex_datastore_id
      ∧ r'.vertex_datastore_status = r.vertex_datastore_status
  | [], _, r => ⟨r, rfl, rfl, rfl⟩
  | op :: ops, h, r => by
    cases op with
    | upsert a =>
      exact absurd (h (LedgerOp.upsert a) (by simp)) (by simp [isMark])
    | setVertexRef i s =>
      exact absurd (h (LedgerOp.setVertexRef i s) (by simp)) (by simp [isMark])
    | mark n c f cs e =>
      obtain ⟨r', hr', hid, hst⟩ := marks_preserve_vertexRef ops
        (fun op hop => h op (by simp [hop])) ((updateMerchantOnboardingStep r n c f cs e 0).2)
      refine ⟨r', by simpa [applyLedgerOps, applyLedgerOp] using hr', ?_, ?_⟩
      · rw [hid, (vertexRef_mark_frame r n c f cs e 0).1]
      · rw [hst, (vertexRef_mark_frame r n c f cs e 0).2]

/-- Claim C10, confirmed: whenever the run reaches a successful
setup_vertex step and the vertex-reference UPDATE succeeds, the merchant
row's persisted search-index reference is a constant independent of the
provisioning result — `vertex_datastore_id` is the fallback
`{merchant_id}-engine` and `vertex_datastore_status` is `error` — because
the `create_datastore` dict is keyed `website_datastore` /
`documents_datastore` and has no top-level `datastore_id` or `status`
key. -/
theorem C10_vertex_reference_constant (a : OnboardArgs) (env : Env)
    (db0 : Option MerchantRow)
    (h0 : fatal0 env = none) (h1 : fatal1 env = none) (h2 : fatal2 env = none)
    (hds : env.createDatastoreRaises = none)
    (hdb : env.vertexDbUpdateOk = true) :
    ((createDatastoreResult a.shop_url env.websiteDatastoreInfo
        env.documentsDatastoreInfo).lookup "datastore_id" = none)
    ∧ ((createDatastoreResult a.shop_url env.websiteDatastoreInfo
        env.documentsDatastoreInfo).lookup "status" = none)
    ∧ ∃ r, finalLedger a env db0 = some r
        ∧ r.vertex_datastore_id = some (a.merchant_id ++ "-engine")
        ∧ r.vertex_datastore_status = some "error" := by
  refine ⟨rfl, rfl, ?_⟩
  have he : env.createMerchantOutcome = Except.ok true := by
    cases hc : env.createMerchantOutcome with
    | error e => rw [fatal0, hc] at h0; simp at h0
    | ok b =>
      cases b
      · rw [fatal0, hc] at h0; simp at h0
      · rfl
  have hg1 : reached1 env = true := by simp [reached1, h0]
  have hg2 : reached2 env = true := by simp [reached2, reached1, h0, h1]
  have hg5 : reached5 env = true := by
    simp [reached5, reached2, reached1, h0, h1, h2]
  have hg6 : reached6 env = true := by
    simp [reached6, reached5, reached2, reached1, h0, h1, h2, fatal5, hds]
  have hid : (createDatastoreResult a.shop_url env.websiteDatastoreInfo
      env.documentsDatastoreInfo).lookup "datastore_id" = none := rfl
  have hst : (createDatastoreResult a.shop_url env.websiteDatastoreInfo
      env.documentsDatastoreInfo).lookup "status" = none := rfl
  have h5 : ops5 a env
      = [LedgerOp.mark "vertex" true none none none,
         LedgerOp.setVertexRef (a.merchant_id ++ "-engine") "error"] := by
    rw [ops5, hds]
    simp [hdb, onlyIf, hid, hst]
  have hops0 : ops0 a env
      = [LedgerOp.upsert (upsertArgsOf a),
         LedgerOp.mark "merchant_record" true none none none] := by
    rw [ops0, he]
  unfold finalLedger processOnboardingLedgerOps
  rw [hg1, hg2, hg5, hg6, hops0, h5]
  simp only [onlyIf, if_true, applyLedgerOps_append]
  obtain ⟨r0, hr0⟩ := applyLedgerOps_some
    [LedgerOp.mark "merchant_record" true none none none]
    (createMerchantUpsert db0 (upsertArgsOf a))
  have hstart : applyLedgerOps db0
      [LedgerOp.upsert (upsertArgsOf a),
       LedgerOp.mark "merchant_record" true none none none] = some r0 := by
    simpa [applyLedgerOps, applyLedgerOp] using hr0
  rw [hstart]
  obtain ⟨rA, hA⟩ := applyLedgerOps_some (ops1 env) r0
  rw [hA]
  obtain ⟨rB, hB⟩ := applyLedgerOps_some (ops2 env) rA
  rw [hB]
  obtain ⟨rC, hC⟩ := applyLedgerOps_some (ops3 env) rB
  rw [hC]
  obtain ⟨rD, hD⟩ := applyLedgerOps_some (ops4 env) rC
  rw [hD]
  have h5' : applyLedgerOps (some rD)
      [LedgerOp.mark "vertex" true none none none,
       LedgerOp.setVertexRef (a.merchant_id ++ "-engine") "error"]
      = some { (updateMerchantOnboardingStep rD "vertex" true none none none 0).2 with
               vertex_datastore_id := some (a.merchant_id ++ "-engine")
               vertex_datastore_status := some "error" } := by
    simp [applyLedgerOps, applyLedgerOp]
  rw [h5']
  have hmarks : ∀ op ∈ ops6 a env ++ opsFinal env, isMark op = true := by
    intro op hop
    rcases List.mem_append.mp hop with hm | hm
    · cases hco : env.generateConfigOutcome with
      | ok p => rw [ops6, hco] at hm; simp at hm; rw [hm]; rfl
      | error e => rw [ops6, hco] at hm; simp at hm; rw [hm]; rfl
    · cases hff : firstFatal env with
      | none => rw [opsFinal, hff] at hm; simp at hm; rw [hm]; rfl
      | some e => rw [opsFinal, hff] at hm; simp at hm; rw [hm]; rfl
  obtain ⟨rF, hF, hFid, hFst⟩ := marks_preserve_vertexRef
    (ops6 a env ++ opsFinal env) hmarks
    { (updateMerchantOnboardingStep rD "vertex" true none none none 0).2 with
      vertex_datastore_id := some (a.merchant_id ++ "-engine")
      vertex_datastore_status := some "error" }
  rw [← applyLedgerOps_append, hF]
  exact ⟨rF, rfl, hFid, hFst⟩

/-- Witness for C10 at a concrete happy-path environment. -/
def c10Env : Env :=
  { createMerchantOutcome := Except.ok true
    foldersAlreadyCreated := true
    createFoldersOutcome := Except.ok ()
    listProductsScan := Except.ok []
    processProductsOutcome := Except.ok 0
    listCategoriesScan := Except.ok []
    processCategoriesOutcome := Except.ok 0
    listDocumentsScan := Except.ok []
    convertDocumentsOutcome := Except.ok { document_count := 0, skipped_files := [] }
    createDatastoreRaises := none
    websiteDatastoreInfo := { datastore_id := "m-website-engine", status := "created" }
    documentsDatastoreInfo := { datastore_id := "m-docs-engine", status := "created" }
    docsNdjsonExists := false
    importDocsOutcome := Except.ok ()
    productsNdjsonExists := false
    importProductsOutcome := Except.ok ()
    categoriesNdjsonExists := false
    importCategoriesOutcome := Except.ok ()
    vertexDbUpdateOk := true
    generateConfigOutcome := Except.ok none }

/-- The concrete onboarding arguments used by several witnesses. -/
def sampleArgs : OnboardArgs :=
  { merchant_id := "m", user_id := "u", shop_name := "Shop"
    shop_url := "https://x.example", bot_name := "Bot"
    target_customer := none, customer_persona := none, bot_tone := none
    prompt_text := none, top_questions := none, top_products := none
    primary_color := none, secondary_color := none, logo_url := none
    platform := none, custom_url_pattern := none }

/-- Witness for C10: the happy-path run stores `m-engine` / `error`. -/
theorem C10_vertex_reference_constant_witness :
    ∃ r, finalLedger sampleArgs c10Env none = some r
      ∧ r.vertex_datastore_id = some ("m" ++ "-engine")
      ∧ r.vertex_datastore_status = some "error" :=
  (C10_vertex_reference_constant sampleArgs c10Env none
    (by decide) (by decide) (by decide) (by decide) (by decide)).2.2

/-! ## Trace infrastructure for the temporal claims -/

/-- The sub-trace of tracker events addressed to one step. -/
def eventsFor (evs : List Ev) (s : String) : List Ev :=
  evs.filter (fun e => e.step = s)

/-- The sequence of statuses a step is advanced through in a trace. -/
def statusWord (evs : List Ev) (s : String) : List StepStatus :=
  (eventsFor evs s).map Ev.status

theorem eventsFor_append (l1 l2 : List Ev) (s : String) :
    eventsFor (l1 ++ l2) s = eventsFor l1 s ++ eventsFor l2 s := by
  simp [eventsFor, List.filter_append]

theorem statusWord_append (l1 l2 : List Ev) (s : String) :
    statusWord (l1 ++ l2) s = statusWord l1 s ++ statusWord l2 s := by
  simp [statusWord, eventsFor_append]

theorem eventsFor_onlyIf (b : Bool) (l : List Ev) (s : String) :
    eventsFor (onlyIf b l) s = if b then eventsFor l s else [] := by
  cases b <;> simp [onlyIf, eventsFor]

theorem statusWord_onlyIf (b : Bool) (l : List Ev) (s : String) :
    statusWord (onlyIf b l) s = if b then statusWord l s else [] := by
  cases b <;> simp [onlyIf, statusWord, eventsFor]

theorem eventsFor_events0_ne (env : Env) (s : String)
    (h : ¬ "create_merchant_record" = s) : eventsFor (events0 env) s = [] := by
  unfold events0
  (repeat' split) <;> simp [eventsFor, ev, evMsg, evErr, h]

theorem eventsFor_events1_ne (env : Env) (s : String)
    (h : ¬ "create_folders" = s) : eventsFor (events1 env) s = [] := by
  unfold events1
  (repeat' split) <;> simp [eventsFor, ev, evMsg, evErr, h]

theorem eventsFor_events2_ne (env : Env) (s : String)
    (h : ¬ "process_products" = s) : eventsFor (events2 env) s = [] := by
  unfold events2
  (repeat' split) <;> simp [eventsFor, ev, evMsg, evErr, h]

theorem eventsFor_events3_ne (env : Env) (s : String)
    (h : ¬ "process_categories" = s) : eventsFor (events3 env) s = [] := by
  unfold events3
  (repeat' split) <;> simp [eventsFor, ev, evMsg, evErr, h]

theorem eventsFor_events4_ne (env : Env) (s : String)
    (h : ¬ "convert_documents" = s) : eventsFor (events4 env) s = [] := by
  unfold events4
  (repeat' split) <;> simp [eventsFor, ev, evMsg, evErr, h]

theorem eventsFor_events5_ne (a : OnboardArgs) (env : Env) (s : String)
    (h : ¬ "setup_vertex" = s) : eventsFor (events5 a env) s = [] := by
  unfold events5
  (repeat' split) <;> simp [eventsFor, ev, evMsg, evErr, h]

theorem eventsFor_events6_ne (env : Env) (s : String)
    (h : ¬ "generate_config" = s) : eventsFor (events6 env) s = [] := by
  unfold events6
  (repeat' split) <;> simp [eventsFor, ev, evMsg, evErr, h]

theorem eventsFor_eventsFinal_ne (env : Env) (s : String)
    (h : ¬ "finalize" = s) : eventsFor (eventsFinal env) s = [] := by
  unfold eventsFinal
  (repeat' split) <;> simp [eventsFor, ev, evMsg, evErr, h]

theorem word_events0 (env : Env) :
    statusWord (events0 env) "create_merchant_record"
      ∈ [[StepStatus.in_progress, StepStatus.completed],
         [StepStatus.in_progress, StepStatus.failed]] := by
  unfold events0
  (repeat' split) <;> simp [statusWord, eventsFor, ev, evMsg, evErr]

theorem word_events1 (env : Env) :
    statusWord (events1 env) "create_folders"
      ∈ [[StepStatus.in_progress, StepStatus.completed],
         [StepStatus.in_progress, StepStatus.failed]] := by
  unfold events1
  (repeat' split) <;> simp [statusWord, eventsFor, ev, evMsg, evErr]

theorem word_events2 (env : Env) :
    statusWord (events2 env) "process_products"
      ∈ [[StepStatus.skipped],
         [StepStatus.in_progress, StepStatus.completed],
         [StepStatus.in_progress, StepStatus.failed]] := by
  unfold events2
  (repeat' split) <;> simp [statusWord, eventsFor, ev, evMsg, evErr]

theorem word_events3 (env : Env) :
    statusWord (events3 env) "process_categories"
      ∈ [[StepStatus.skipped],
         [StepStatus.in_progress, StepStatus.completed],
         [StepStatus.in_progress, StepStatus.failed]] := by
  unfold events3
  (repeat' split) <;> simp [statusWord, eventsFor, ev, evMsg, evErr]

theorem word_events4 (env : Env) :
    statusWord (events4 env) "convert_documents"
      ∈ [[StepStatus.skipped],
         [StepStatus.in_progress, StepStatus.completed],
         [StepStatus.in_progress, StepStatus.skipped],
         [StepStatus.in_progress, StepStatus.failed]] := by
  unfold events4
  (repeat' split) <;> simp [statusWord, eventsFor, ev, evMsg, evErr]

theorem word_events5 (a : OnboardArgs) (env : Env) :
    statusWord (events5 a env) "setup_vertex"
      ∈ [[StepStatus.in_progress, StepStatus.completed],
         [StepStatus.in_progress, StepStatus.failed]] := by
  unfold events5
  (repeat' split) <;> simp [statusWord, eventsFor, ev, evMsg, evErr]

theorem word_events6 (env : Env) :
    statusWord (events6 env) "generate_config"
      ∈ [[StepStatus.in_progress, StepStatus.completed],
         [StepStatus.in_progress, StepStatus.failed]] := by
  unfold events6
  (repeat' split) <;> simp [statusWord, eventsFor, ev, evMsg, evErr]

theorem word_eventsFinal (env : Env) :
    statusWord (eventsFinal env) "finalize"
      ∈ [[StepStatus.completed], [StepStatus.failed]] := by
  unfold eventsFinal
  (repeat' split) <;> simp [statusWord, eventsFor, ev, evMsg, evErr]

theorem statusWord_run (a : OnboardArgs) (env : Env) (s : String) :
    statusWord (processOnboardingEvents a env) s =
      statusWord (events0 env) s
      ++ ((if reached1 env then statusWord (events1 env) s else [])
      ++ ((if reached2 env then statusWord (events2 env) s else [])
      ++ ((if reached5 env then statusWord (events3 env) s else [])
      ++ ((if reached5 env then statusWord (events4 env) s else [])
      ++ ((if reached5 env then statusWord (events5 a env) s else [])
      ++ ((if reached6 env then statusWord (events6 env) s else [])
      ++ statusWord (eventsFinal env) s)))))) := by
  simp [processOnboardingEvents, statusWord_append, statusWord_onlyIf]

theorem eventsFor_run (a : OnboardArgs) (env : Env) (s : String) :
    eventsFor (processOnboardingEvents a env) s =
      eventsFor (events0 env) s
      ++ ((if reached1 env then eventsFor (events1 env) s else [])
      ++ ((if reached2 env then eventsFor (events2 env) s else [])
      ++ ((if reached5 env then eventsFor (events3 env) s else [])
      ++ ((if reached5 env then eventsFor (events4 env) s else [])
      ++ ((if reached5 env then eventsFor (events5 a env) s else [])
      ++ ((if reached6 env then eventsFor (events6 env) s else [])
      ++ eventsFor (eventsFinal env) s)))))) := by
  simp [processOnboardingEvents, eventsFor_append, eventsFor_onlyIf]

/-- The status a step ends at after replaying a status word over a
default. -/
def lastStatus : List StepStatus → Option StepStatus → Option StepStatus
  | [], d => d
  | a :: w, _ => lastStatus w (some a)

theorem lastStatus_cons (a : StepStatus) (w : List StepStatus) (d : Option StepStatus) :
    lastStatus (a :: w) d = lastStatus w (some a) := rfl

theorem lookup_isSome_updateStepStatus (job : Job) (n : String) (st : StepStatus)
    (m e : Option String) (s : String) (h : (job.steps.lookup s).isSome = true) :
    (((updateStepStatus job n st m e).steps).lookup s).isSome = true := by
  by_cases hs : s = n
  · subst hs
    have h2 := lookup_updateStepStatus_self job s st m e h
    cases hl : ((updateStepStatus job s st m e).steps).lookup s with
    | none => rw [hl] at h2; simp at h2
    | some r => simp
  · rw [lookup_updateStepStatus_other job n st m e s hs]
    exact h

theorem applyEvents_status : ∀ (evs : List Ev) (j : Job) (s : String),
    (j.steps.lookup s).isSome = true →
    (((applyEvents j evs).steps).lookup s).map StepRec.status
      = lastStatus (statusWord evs s) ((j.steps.lookup s).map StepRec.status)
  | [], j, s, h => by simp [applyEvents, statusWord, eventsFor, lastStatus]
  | e :: evs, j, s, h => by
    have step : applyEvents j (e :: evs)
        = applyEvents (updateStepStatus j e.step e.status e.message e.error) evs := rfl
    by_cases hs : e.step = s
    · subst hs
      have hw : statusWord (e :: evs) e.step = e.status :: statusWord evs e.step := by
        simp [statusWord, eventsFor]
      have h2 := lookup_isSome_updateStepStatus j e.step e.status e.message e.error e.step h
      have h3 := lookup_updateStepStatus_self j e.step e.status e.message e.error h
      rw [step, hw, lastStatus_cons, applyEvents_status evs _ e.step h2, h3]
    · have hw : statusWord (e :: evs) s = statusWord evs s := by
        simp [statusWord, eventsFor, hs]
      have hne : s ≠ e.step := fun hh => hs hh.symm
      have hlk := lookup_updateStepStatus_other j e.step e.status e.message e.error s hne
      rw [step, hw, applyEvents_status evs _ s (by rw [hlk]; exact h), hlk]

/-! ## Claim C8 -/

/-- The environment of a fully successful run, used by several
counterexamples and witnesses. -/
def happyEnv : Env := c10Env

/-- Claim C8, counterexample: on a fully successful run the finalize
step transitions directly from pending to completed — its event word is
`[completed]` with no in_progress phase — contradicting "no step
transitions directly from pending to completed without first passing
through in_progress". -/
theorem C8_counterexample :
    statusWord (processOnboardingEvents sampleArgs happyEnv) "finalize"
      = [StepStatus.completed]
    ∧ (((finalTrackerJob sampleArgs happyEnv 0).steps).lookup "finalize").map
        StepRec.status = some StepStatus.completed := by
  exact ⟨rfl, rfl⟩

/-- Claim C8 as amended: for every run, each of the first six tracked
steps is advanced along pending → in_progress → (completed | failed |
skipped), or directly pending → skipped, or not at all (when the run
aborted earlier) — in particular no such step reaches completed or
failed without passing through in_progress, while skipped is reachable
both directly (no input files) and after in_progress (convert_documents
when conversion yields zero documents); the finalize step is the
exception — it is advanced exactly once, directly from pending to
completed (successful run) or failed (aborted run), without an
in_progress phase.  Terminal states are final: no step receives a
further advance after reaching completed, failed or skipped. -/
theorem C8_step_words (a : OnboardArgs) (env : Env) :
    statusWord (processOnboardingEvents a env) "create_folders"
      ∈ [[], [StepStatus.in_progress, StepStatus.completed],
         [StepStatus.in_progress, StepStatus.failed]]
    ∧ statusWord (processOnboardingEvents a env) "process_products"
      ∈ [[], [StepStatus.skipped], [StepStatus.in_progress, StepStatus.completed],
         [StepStatus.in_progress, StepStatus.failed]]
    ∧ statusWord (processOnboardingEvents a env) "process_categories"
      ∈ [[], [StepStatus.skipped], [StepStatus.in_progress, StepStatus.completed],
         [StepStatus.in_progress, StepStatus.failed]]
    ∧ statusWord (processOnboardingEvents a env) "convert_documents"
      ∈ [[], [StepStatus.skipped], [StepStatus.in_progress, StepStatus.completed],
         [StepStatus.in_progress, StepStatus.skipped],
         [StepStatus.in_progress, StepStatus.failed]]
    ∧ statusWord (processOnboardingEvents a env) "setup_vertex"
      ∈ [[], [StepStatus.in_progress, StepStatus.completed],
         [StepStatus.in_progress, StepStatus.failed]]
    ∧ statusWord (processOnboardingEvents a env) "generate_config"
      ∈ [[], [StepStatus.in_progress, StepStatus.completed],
         [StepStatus.in_progress, StepStatus.failed]]
    ∧ statusWord (processOnboardingEvents a env) "finalize"
      ∈ [[StepStatus.completed], [StepStatus.failed]] := by
  refine ⟨?_, ?_, ?_, ?_, ?_, ?_, ?_⟩
  · have h := statusWord_run a env "create_folders"
    rw [show statusWord (events0 env) "create_folders" = [] from by
        rw [statusWord, eventsFor_events0_ne env _ (by decide)]; rfl,
      show statusWord (events2 env) "create_folders" = [] from by
        rw [statusWord, eventsFor_events2_ne env _ (by decide)]; rfl,
      show statusWord (events3 env) "create_folders" = [] from by
        rw [statusWord, eventsFor_events3_ne env _ (by decide)]; rfl,
      show statusWord (events4 env) "create_folders" = [] from by
        rw [statusWord, eventsFor_events4_ne env _ (by decide)]; rfl,
      show statusWord (events5 a env) "create_folders" = [] from by
        rw [statusWord, eventsFor_events5_ne a env _ (by decide)]; rfl,
      show statusWord (events6 env) "create_folders" = [] from by
        rw [statusWord, eventsFor_events6_ne env _ (by decide)]; rfl,
      show statusWord (eventsFinal env) "create_folders" = [] from by
        rw [statusWord, eventsFor_eventsFinal_ne env _ (by decide)]; rfl] at h
    simp only [List.append_nil, List.nil_append, ite_self] at h
    rw [h]
    cases hb : reached1 env
    · simp
    · have hw := word_events1 env
      simp only [List.mem_cons, List.not_mem_nil, or_false] at hw ⊢
      rcases hw with hw | hw <;> simp [hw]
  · have h := statusWord_run a env "process_products"
    rw [show statusWord (events0 env) "process_products" = [] from by
        rw [statusWord, eventsFor_events0_ne env _ (by decide)]; rfl,
      show statusWord (events1 env) "process_products" = [] from by
        rw [statusWord, eventsFor_events1_ne env _ (by decide)]; rfl,
      show statusWord (events3 env) "process_products" = [] from by
        rw [statusWord, eventsFor_events3_ne env _ (by decide)]; rfl,
      show statusWord (events4 env) "process_products" = [] from by
        rw [statusWord, eventsFor_events4_ne env _ (by decide)]; rfl,
      show statusWord (events5 a env) "process_products" = [] from by
        rw [statusWord, eventsFor_events5_ne a env _ (by decide)]; rfl,
      show statusWord (events6 env) "process_products" = [] from by
        rw [statusWord, eventsFor_events6_ne env _ (by decide)]; rfl,
      show statusWord (eventsFinal env) "process_products" = [] from by
        rw [statusWord, eventsFor_eventsFinal_ne env _ (by decide)]; rfl] at h
    simp only [List.append_nil, List.nil_append, ite_self] at h
    rw [h]
    cases hb : reached2 env
    · simp
    · have hw := word_events2 env
      simp only [List.mem_cons, List.not_mem_nil, or_false] at hw ⊢
      rcases hw with hw | hw | hw <;> simp [hw]
  · have h := statusWord_run a env "process_categories"
    rw [show statusWord (events0 env) "process_categories" = [] from by
        rw [statusWord, eventsFor_events0_ne env _ (by decide)]; rfl,
      show statusWord (events1 env) "process_categories" = [] from by
        rw [statusWord, eventsFor_events1_ne env _ (by decide)]; rfl,
      show statusWord (events2 env) "process_categories" = [] from by
        rw [statusWord, eventsFor_events2_ne env _ (by decide)]; rfl,
      show statusWord (events4 env) "process_categories" = [] from by
        rw [statusWord, eventsFor_events4_ne env _ (by decide)]; rfl,
      show statusWord (events5 a env) "process_categories" = [] from by
        rw [statusWord, eventsFor_events5_ne a env _ (by decide)]; rfl,
      show statusWord (events6 env) "process_categories" = [] from by
        rw [statusWord, eventsFor_events6_ne env _ (by decide)]; rfl,
      show statusWord (eventsFinal env) "process_categories" = [] from by
        rw [statusWord, eventsFor_eventsFinal_ne env _ (by decide)]; rfl] at h
    simp only [List.append_nil, List.nil_append, ite_self] at h
    rw [h]
    cases hb : reached5 env
    · simp
    · have hw := word_events3 env
      simp only [List.mem_cons, List.not_mem_nil, or_false] at hw ⊢
      rcases hw with hw | hw | hw <;> simp [hw]
  · have h := statusWord_run a env "convert_documents"
    rw [show statusWord (events0 env) "convert_documents" = [] from by
        rw [statusWord, eventsFor_events0_ne env _ (by decide)]; rfl,
      show statusWord (events1 env) "convert_documents" = [] from by
        rw [statusWord, eventsFor_events1_ne env _ (by decide)]; rfl,
      show statusWord (events2 env) "convert_documents" = [] from by
        rw [statusWord, eventsFor_events2_ne env _ (by decide)]; rfl,
      show statusWord (events3 env) "convert_documents" = [] from by
        rw [statusWord, eventsFor_events3_ne env _ (by decide)]; rfl,
      show statusWord (events5 a env) "convert_documents" = [] from by
        rw [statusWord, eventsFor_events5_ne a env _ (by decide)]; rfl,
      show statusWord (events6 env) "convert_documents" = [] from by
        rw [statusWord, eventsFor_events6_ne env _ (by decide)]; rfl,
      show statusWord (eventsFinal env) "convert_documents" = [] from by
        rw [statusWord, eventsFor_eventsFinal_ne env _ (by decide)]; rfl] at h
    simp only [List.append_nil, List.nil_append, ite_self] at h
    rw [h]
    cases hb : reached5 env
    · simp
    · have hw := word_events4 env
      simp only [List.mem_cons, List.not_mem_nil, or_false] at hw ⊢
      rcases hw with hw | hw | hw | hw <;> simp [hw]
  · have h := statusWord_run a env "setup_vertex"
    rw [show statusWord (events0 env) "setup_vertex" = [] from by
        rw [statusWord, eventsFor_events0_ne env _ (by decide)]; rfl,
      show statusWord (events1 env) "setup_vertex" = [] from by
        rw [statusWord, eventsFor_events1_ne env _ (by decide)]; rfl,
      show statusWord (events2 env) "setup_vertex" = [] from by
        rw [statusWord, eventsFor_events2_ne env _ (by decide)]; rfl,
      show statusWord (events3 env) "setup_vertex" = [] from by
        rw [statusWord, eventsFor_events3_ne env _ (by decide)]; rfl,
      show statusWord (events4 env) "setup_vertex" = [] from by
        rw [statusWord, eventsFor_events4_ne env _ (by decide)]; rfl,
      show statusWord (events6 env) "setup_vertex" = [] from by
        rw [statusWord, eventsFor_events6_ne env _ (by decide)]; rfl,
      show statusWord (eventsFinal env) "setup_vertex" = [] from by
        rw [statusWord, eventsFor_eventsFinal_ne env _ (by decide)]; rfl] at h
    simp only [List.append_nil, List.nil_append, ite_self] at h
    rw [h]
    cases hb : reached5 env
    · simp
    · have hw := word_events5 a env
      simp only [List.mem_cons, List.not_mem_nil, or_false] at hw ⊢
      rcases hw with hw | hw <;> simp [hw]
  · have h := statusWord_run a env "generate_config"
    rw [show statusWord (events0 env) "generate_config" = [] from by
        rw [statusWord, eventsFor_events0_ne env _ (by decide)]; rfl,
      show statusWord (events1 env) "generate_config" = [] from by
        rw [statusWord, eventsFor_events1_ne env _ (by decide)]; rfl,
      show statusWord (events2 env) "generate_config" = [] from by
        rw [statusWord, eventsFor_events2_ne env _ (by decide)]; rfl,
      show statusWord (events3 env) "generate_config" = [] from by
        rw [statusWord, eventsFor_events3_ne env _ (by decide)]; rfl,
      show statusWord (events4 env) "generate_config" = [] from by
        rw [statusWord, eventsFor_events4_ne env _ (by decide)]; rfl,
      show statusWord (events5 a env) "generate_config" = [] from by
        rw [statusWord, eventsFor_events5_ne a env _ (by decide)]; rfl,
      show statusWord (eventsFinal env) "generate_config" = [] from by
        rw [statusWord, eventsFor_eventsFinal_ne env _ (by decide)]; rfl] at h
    simp only [List.append_nil, List.nil_append, ite_self] at h
    rw [h]
    cases hb : reached6 env
    · simp
    · have hw := word_events6 env
      simp only [List.mem_cons, List.not_mem_nil, or_false] at hw ⊢
      rcases hw with hw | hw <;> simp [hw]
  · have h := statusWord_run a env "finalize"
    rw [show statusWord (events0 env) "finalize" = [] from by
        rw [statusWord, eventsFor_events0_ne env _ (by decide)]; rfl,
      show statusWord (events1 env) "finalize" = [] from by
        rw [statusWord, eventsFor_events1_ne env _ (by decide)]; rfl,
      show statusWord (events2 env) "finalize" = [] from by
        rw [statusWord, eventsFor_events2_ne env _ (by decide)]; rfl,
      show statusWord (events3 env) "finalize" = [] from by
        rw [statusWord, eventsFor_events3_ne env _ (by decide)]; rfl,
      show statusWord (events4 env) "finalize" = [] from by
        rw [statusWord, eventsFor_events4_ne env _ (by decide)]; rfl,
      show statusWord (events5 a env) "finalize" = [] from by
        rw [statusWord, eventsFor_events5_ne a env _ (by decide)]; rfl,
      show statusWord (events6 env) "finalize" = [] from by
        rw [statusWord, eventsFor_events6_ne env _ (by decide)]; rfl] at h
    simp only [List.append_nil, List.nil_append, ite_self] at h
    rw [h]
    exact word_eventsFinal env

/-! ## Claim C3 -/

/-- Environment of a run where a products file exists and the products
transform raises. -/
def c3Env : Env :=
  { happyEnv with
    listProductsScan := Except.ok ["merchants/m/knowledge_base/products.csv"]
    processProductsOutcome := Except.error "transform boom" }

/-- Claim C3, counterexample: when the products transform raises,
setup_vertex and generate_config indeed stay pending, but finalize does
not — the outer exception handler advances finalize to failed, so
"finalize never transitions out of pending" is false. -/
theorem C3_counterexample :
    (((finalTrackerJob sampleArgs c3Env 0).steps).lookup "setup_vertex").map
        StepRec.status = some StepStatus.pending
    ∧ (((finalTrackerJob sampleArgs c3Env 0).steps).lookup "generate_config").map
        StepRec.status = some StepStatus.pending
    ∧ (((finalTrackerJob sampleArgs c3Env 0).steps).lookup "finalize").map
        StepRec.status = some StepStatus.failed := by
  exact ⟨rfl, rfl, rfl⟩

/-- Claim C3 as amended: if a products file exists and the products
transform raises (after merchant record and folder creation succeeded),
execution stops: setup_vertex and generate_config receive no advance at
all and finish the run still pending; finalize, however, is advanced
once — directly to failed with the error recorded by the outer
handler. -/
theorem C3_products_fatal_short_circuit (a : OnboardArgs) (env : Env) (now : Nat)
    (h0 : fatal0 env = none) (h1 : fatal1 env = none)
    (p e : String) (hp : productsPath env = some p)
    (he : env.processProductsOutcome = Except.error e) :
    eventsFor (processOnboardingEvents a env) "setup_vertex" = []
    ∧ eventsFor (processOnboardingEvents a env) "generate_config" = []
    ∧ statusWord (processOnboardingEvents a env) "finalize" = [StepStatus.failed]
    ∧ (((finalTrackerJob a env now).steps).lookup "setup_vertex").map StepRec.status
        = some StepStatus.pending
    ∧ (((finalTrackerJob a env now).steps).lookup "generate_config").map StepRec.status
        = some StepStatus.pending
    ∧ (((finalTrackerJob a env now).steps).lookup "finalize").map StepRec.status
        = some StepStatus.failed := by
  have hf2 : fatal2 env = some e := by simp [fatal2, hp, he]
  have hr5 : reached5 env = false := by simp [reached5, hf2]
  have hr6 : reached6 env = false := by simp [reached6, reached5, hf2]
  have hff : firstFatal env = some e := by simp [firstFatal, h0, h1, hf2, optOr]
  have hv : eventsFor (processOnboardingEvents a env) "setup_vertex" = [] := by
    rw [eventsFor_run,
      eventsFor_events0_ne env _ (by decide), eventsFor_events1_ne env _ (by decide),
      eventsFor_events2_ne env _ (by decide), eventsFor_events3_ne env _ (by decide),
      eventsFor_events4_ne env _ (by decide), eventsFor_events6_ne env _ (by decide),
      eventsFor_eventsFinal_ne env _ (by decide)]
    simp [hr5, hr6]
  have hg : eventsFor (processOnboardingEvents a env) "generate_config" = [] := by
    rw [eventsFor_run,
      eventsFor_events0_ne env _ (by decide), eventsFor_events1_ne env _ (by decide),
      eventsFor_events2_ne env _ (by decide), eventsFor_events3_ne env _ (by decide),
      eventsFor_events4_ne env _ (by decide), eventsFor_events5_ne a env _ (by decide),
      eventsFor_eventsFinal_ne env _ (by decide)]
    simp [hr6]
  have hfin : statusWord (processOnboardingEvents a env) "finalize"
      = [StepStatus.failed] := by
    rw [statusWord_run,
      show statusWord (events0 env) "finalize" = [] from by
        rw [statusWord, eventsFor_events0_ne env _ (by decide)]; rfl,
      show statusWord (events1 env) "finalize" = [] from by
        rw [statusWord, eventsFor_events1_ne env _ (by decide)]; rfl,
      show statusWord (events2 env) "finalize" = [] from by
        rw [statusWord, eventsFor_events2_ne env _ (by decide)]; rfl,
      show statusWord (events3 env) "finalize" = [] from by
        rw [statusWord, eventsFor_events3_ne env _ (by decide)]; rfl,
      show statusWord (events4 env) "finalize" = [] from by
        rw [statusWord, eventsFor_events4_ne env _ (by decide)]; rfl,
      show statusWord (events5 a env) "finalize" = [] from by
        rw [statusWord, eventsFor_events5_ne a env _ (by decide)]; rfl,
      show statusWord (events6 env) "finalize" = [] from by
        rw [statusWord, eventsFor_events6_ne env _ (by decide)]; rfl]
    simp only [List.append_nil, List.nil_append, ite_self]
    simp [eventsFinal, hff, statusWord, eventsFor, evErr]
  refine ⟨hv, hg, hfin, ?_, ?_, ?_⟩
  · have h4 := applyEvents_status (processOnboardingEvents a env)
      (createJob a.merchant_id a.user_id now) "setup_vertex" rfl
    rw [show statusWord (processOnboardingEvents a env) "setup_vertex" = [] from by
      rw [statusWord, hv]; rfl] at h4
    exact h4
  · have h4 := applyEvents_status (processOnboardingEvents a env)
      (createJob a.merchant_id a.user_id now) "generate_config" rfl
    rw [show statusWord (processOnboardingEvents a env) "generate_config" = [] from by
      rw [statusWord, hg]; rfl] at h4
    exact h4
  · have h4 := applyEvents_status (processOnboardingEvents a env)
      (createJob a.merchant_id a.user_id now) "finalize" rfl
    rw [hfin] at h4
    exact h4

/-- Witness for C3 at the concrete failing-products environment. -/
theorem C3_products_fatal_short_circuit_witness :
    eventsFor (processOnboardingEvents sampleArgs c3Env) "setup_vertex" = []
    ∧ eventsFor (processOnboardingEvents sampleArgs c3Env) "generate_config" = []
    ∧ statusWord (processOnboardingEvents sampleArgs c3Env) "finalize"
        = [StepStatus.failed]
    ∧ (((finalTrackerJob sampleArgs c3Env 0).steps).lookup "setup_vertex").map
        StepRec.status = some StepStatus.pending
    ∧ (((finalTrackerJob sampleArgs c3Env 0).steps).lookup "generate_config").map
        StepRec.status = some StepStatus.pending
    ∧ (((finalTrackerJob sampleArgs c3Env 0).steps).lookup "finalize").map
        StepRec.status = some StepStatus.failed :=
  C3_products_fatal_short_circuit sampleArgs c3Env 0 rfl rfl
    "merchants/m/knowledge_base/products.csv" "transform boom" rfl rfl

/-! ## Claim C4 -/

/-- Environment where datastore creation raises a permission error. -/
def c4PermEnv : Env :=
  { happyEnv with createDatastoreRaises := some "Permission denied for datastore" }

/-- Environment where datastore creation raises a non-permission
error. -/
def c4FatalEnv : Env :=
  { happyEnv with createDatastoreRaises := some "datastore quota exceeded" }

/-- Claim C4, counterexample: a datastore-creation failure whose message
matches the permission markers is NOT fatal — the run continues,
generate_config completes, and the run finalizes as completed even
though setup_vertex failed. -/
theorem C4_counterexample :
    (((finalTrackerJob sampleArgs c4PermEnv 0).steps).lookup "setup_vertex").map
        StepRec.status = some StepStatus.failed
    ∧ (((finalTrackerJob sampleArgs c4PermEnv 0).steps).lookup "generate_config").map
        StepRec.status = some StepStatus.completed
    ∧ statusWord (processOnboardingEvents sampleArgs c4PermEnv) "finalize"
        = [StepStatus.completed] := by
  exact ⟨rfl, rfl, rfl⟩

/-- Claim C4 as amended: in the setup_vertex step a datastore-creation
failure is fatal — the run aborts, generate_config never leaves pending
and finalize is marked failed — unless the error text contains
IAM_PERMISSION_DENIED or Permission: a permission error marks
setup_vertex failed with the actionable remediation hint but the run
continues (generate_config is attempted and the run still finalizes). -/
theorem C4_datastore_failure_policy (a : OnboardArgs) (env : Env) (now : Nat)
    (e : String)
    (h0 : fatal0 env = none) (h1 : fatal1 env = none) (h2 : fatal2 env = none)
    (hds : env.createDatastoreRaises = some e) :
    (isPermissionError e = false →
      statusWord (processOnboardingEvents a env) "setup_vertex"
          = [StepStatus.in_progress, StepStatus.failed]
      ∧ eventsFor (processOnboardingEvents a env) "generate_config" = []
      ∧ statusWord (processOnboardingEvents a env) "finalize" = [StepStatus.failed]
      ∧ (((finalTrackerJob a env now).steps).lookup "generate_config").map
          StepRec.status = some StepStatus.pending)
    ∧ (isPermissionError e = true →
      eventsFor (processOnboardingEvents a env) "setup_vertex"
          = [ev "setup_vertex" StepStatus.in_progress,
             evErr "setup_vertex" StepStatus.failed permissionHint]
      ∧ (statusWord (processOnboardingEvents a env) "generate_config").head?
          = some StepStatus.in_progress
      ∧ statusWord (processOnboardingEvents a env) "finalize" ≠ []) := by
  have hr5 : reached5 env = true := by
    simp [reached5, reached2, reached1, h0, h1, h2]
  constructor
  · intro hp
    have hf5 : fatal5 env = some e := by simp [fatal5, hds, hp]
    have hr6 : reached6 env = false := by simp [reached6, hf5]
    have hff : firstFatal env = some e := by
      simp [firstFatal, h0, h1, h2, hf5, optOr]
    have hg : eventsFor (processOnboardingEvents a env) "generate_config" = [] := by
      rw [eventsFor_run,
        eventsFor_events0_ne env _ (by decide), eventsFor_events1_ne env _ (by decide),
        eventsFor_events2_ne env _ (by decide), eventsFor_events3_ne env _ (by decide),
        eventsFor_events4_ne env _ (by decide), eventsFor_events5_ne a env _ (by decide),
        eventsFor_eventsFinal_ne env _ (by decide)]
      simp [hr6]
    refine ⟨?_, hg, ?_, ?_⟩
    · rw [statusWord_run,
        show statusWord (events0 env) "setup_vertex" = [] from by
          rw [statusWord, eventsFor_events0_ne env _ (by decide)]; rfl,
        show statusWord (events1 env) "setup_vertex" = [] from by
          rw [statusWord, eventsFor_events1_ne env _ (by decide)]; rfl,
        show statusWord (events2 env) "setup_vertex" = [] from by
          rw [statusWord, eventsFor_events2_ne env _ (by decide)]; rfl,
        show statusWord (events3 env) "setup_vertex" = [] from by
          rw [statusWord, eventsFor_events3_ne env _ (by decide)]; rfl,
        show statusWord (events4 env) "setup_vertex" = [] from by
          rw [statusWord, eventsFor_events4_ne env _ (by decide)]; rfl,
        show statusWord (events6 env) "setup_vertex" = [] from by
          rw [statusWord, eventsFor_events6_ne env _ (by decide)]; rfl,
        show statusWord (eventsFinal env) "setup_vertex" = [] from by
          rw [statusWord, eventsFor_eventsFinal_ne env _ (by decide)]; rfl]
      simp only [List.append_nil, List.nil_append, ite_self]
      rw [hr5]
      simp [events5, hds, hp, statusWord, eventsFor, ev, evErr]
    · rw [statusWord_run,
        show statusWord (events0 env) "finalize" = [] from by
          rw [statusWord, eventsFor_events0_ne env _ (by decide)]; rfl,
        show statusWord (events1 env) "finalize" = [] from by
          rw [statusWord, eventsFor_events1_ne env _ (by decide)]; rfl,
        show statusWord (events2 env) "finalize" = [] from by
          rw [statusWord, eventsFor_events2_ne env _ (by decide)]; rfl,
        show statusWord (events3 env) "finalize" = [] from by
          rw [statusWord, eventsFor_events3_ne env _ (by decide)]; rfl,
        show statusWord (events4 env) "finalize" = [] from by
          rw [statusWord, eventsFor_events4_ne env _ (by decide)]; rfl,
        show statusWord (events5 a env) "finalize" = [] from by
          rw [statusWord, eventsFor_events5_ne a env _ (by decide)]; rfl,
        show statusWord (events6 env) "finalize" = [] from by
          rw [statusWord, eventsFor_events6_ne env _ (by decide)]; rfl]
      simp only [List.append_nil, List.nil_append, ite_self]
      simp [eventsFinal, hff, statusWord, eventsFor, evErr]
    · have h4 := applyEvents_status (processOnboardingEvents a env)
        (createJob a.merchant_id a.user_id now) "generate_config" rfl
      rw [show statusWord (processOnboardingEvents a env) "generate_config" = [] from by
        rw [statusWord, hg]; rfl] at h4
      exact h4
  · intro hp
    have hf5 : fatal5 env = none := by simp [fatal5, hds, hp]
    have hr6 : reached6 env = true := by simp [reached6, hr5, hf5]
    constructor
    · rw [eventsFor_run,
        eventsFor_events0_ne env _ (by decide), eventsFor_events1_ne env _ (by decide),
        eventsFor_events2_ne env _ (by decide), eventsFor_events3_ne env _ (by decide),
        eventsFor_events4_ne env _ (by decide), eventsFor_events6_ne env _ (by decide),
        eventsFor_eventsFinal_ne env _ (by decide)]
      simp only [List.append_nil, List.nil_append, ite_self]
      rw [hr5]
      simp [events5, hds, hp, eventsFor, ev, evErr]
    constructor
    · rw [statusWord_run,
        show statusWord (events0 env) "generate_config" = [] from by
          rw [statusWord, eventsFor_events0_ne env _ (by decide)]; rfl,
        show statusWord (events1 env) "generate_config" = [] from by
          rw [statusWord, eventsFor_events1_ne env _ (by decide)]; rfl,
        show statusWord (events2 env) "generate_config" = [] from by
          rw [statusWord, eventsFor_events2_ne env _ (by decide)]; rfl,
        show statusWord (events3 env) "generate_config" = [] from by
          rw [statusWord, eventsFor_events3_ne env _ (by decide)]; rfl,
        show statusWord (events4 env) "generate_config" = [] from by
          rw [statusWord, eventsFor_events4_ne env _ (by decide)]; rfl,
        show statusWord (events5 a env) "generate_config" = [] from by
          rw [statusWord, eventsFor_events5_ne a env _ (by decide)]; rfl,
        show statusWord (eventsFinal env) "generate_config" = [] from by
          rw [statusWord, eventsFor_eventsFinal_ne env _ (by decide)]; rfl]
      simp only [List.append_nil, List.nil_append, ite_self]
      rw [hr6]
      cases hco : env.generateConfigOutcome <;>
        simp [events6, hco, statusWord, eventsFor, ev, evMsg, evErr]
    · rw [statusWord_run,
        show statusWord (events0 env) "finalize" = [] from by
          rw [statusWord, eventsFor_events0_ne env _ (by decide)]; rfl,
        show statusWord (events1 env) "finalize" = [] from by
          rw [statusWord, eventsFor_events1_ne env _ (by decide)]; rfl,
        show statusWord (events2 env) "finalize" = [] from by
          rw [statusWord, eventsFor_events2_ne env _ (by decide)]; rfl,
        show statusWord (events3 env) "finalize" = [] from by
          rw [statusWord, eventsFor_events3_ne env _ (by decide)]; rfl,
        show statusWord (events4 env) "finalize" = [] from by
          rw [statusWord, eventsFor_events4_ne env _ (by decide)]; rfl,
        show statusWord (events5 a env) "finalize" = [] from by
          rw [statusWord, eventsFor_events5_ne a env _ (by decide)]; rfl,
        show statusWord (events6 env) "finalize" = [] from by
          rw [statusWord, eventsFor_events6_ne env _ (by decide)]; rfl]
      simp only [List.append_nil, List.nil_append, ite_self]
      cases hff : firstFatal env <;>
        simp [eventsFinal, hff, statusWord, eventsFor, evMsg, evErr]

/-- Witness for C4: the non-permission error aborts before
generate_config; the permission error lets generate_config start. -/
theorem C4_datastore_failure_policy_witness :
    eventsFor (processOnboardingEvents sampleArgs c4FatalEnv) "generate_config" = []
    ∧ (statusWord (processOnboardingEvents sampleArgs c4PermEnv) "generate_config").head?
        = some StepStatus.in_progress :=
  ⟨((C4_datastore_failure_policy sampleArgs c4FatalEnv 0 "datastore quota exceeded"
      rfl rfl rfl rfl).1 rfl).2.1,
   ((C4_datastore_failure_policy sampleArgs c4PermEnv 0 "Permission denied for datastore"
      rfl rfl rfl rfl).2 rfl).2.1⟩

end Onboarding
